import Mathlib

/-!
Verification of the field-flattening, size-guide reconciliation and row-assembly
logic of the TataCliq product extractor (src/app.py).

The Python code is shallowly embedded: JSON documents become the inductive type
Json, Python dictionaries become association-list rows with last-binding-wins
lookup, Python exceptions become the error side of Except, and the external
collaborators (HTTP fetch, json.loads, the size-guide fetch) become explicit
parameters, as the specification treats them as injected capabilities.
-/

/-- A parsed JSON document (the shape of values produced by json.loads).
Numbers are modelled as integers; no claim depends on float arithmetic. -/
inductive Json where
  | null
  | bool (b : Bool)
  | num (n : Int)
  | str (s : String)
  | arr (xs : List Json)
  | obj (fields : List (String × Json))
deriving Repr

mutual
/-- Structural equality on JSON values, modelling the Python == used by the
source on JSON-derived data (list equality is element-wise, dict equality
field-wise). -/
def Json.beq : Json → Json → Bool
  | .null, .null => true
  | .bool a, .bool b => a == b
  | .num a, .num b => a == b
  | .str a, .str b => a == b
  | .arr a, .arr b => Json.beqList a b
  | .obj a, .obj b => Json.beqObj a b
  | _, _ => false
def Json.beqList : List Json → List Json → Bool
  | [], [] => true
  | a :: as, b :: bs => Json.beq a b && Json.beqList as bs
  | _, _ => false
def Json.beqObj : List (String × Json) → List (String × Json) → Bool
  | [], [] => true
  | a :: as, b :: bs => (a.1 == b.1 && Json.beq a.2 b.2) && Json.beqObj as bs
  | _, _ => false
end

instance : BEq Json := ⟨Json.beq⟩

/-- Python truthiness of a JSON-derived value: None, False, 0, empty string,
empty list and empty dict are falsy, everything else is truthy. -/
def Json.truthy : Json → Bool
  | .null => false
  | .bool b => b
  | .num n => n != 0
  | .str s => s != ""
  | .arr xs => !xs.isEmpty
  | .obj fs => !fs.isEmpty

/-- Whether a JSON value may be used as a Python dict key (lists and dicts are
unhashable and raise TypeError). -/
def Json.hashable : Json → Bool
  | .arr _ => false
  | .obj _ => false
  | _ => true

/-- Whether a JSON value is a dict. -/
def Json.isObj : Json → Bool
  | .obj _ => true
  | _ => false

/-- Field lookup in a parsed JSON object (Python dicts have unique keys, so
first match suffices). -/
def lookupF (fs : List (String × Json)) (k : String) : Option Json :=
  (fs.find? fun p => p.1 == k).map fun p => p.2

/-- Python d.get(k): None-defaulting lookup; raises AttributeError when the
receiver is not a dict. -/
def Json.getM : Json → String → Except String (Option Json)
  | .obj fs, k => .ok (lookupF fs k)
  | _, _ => .error "AttributeError: get"

/-- Python subscript d[k]: KeyError when the key is missing, TypeError when the
receiver is not a dict. -/
def Json.item : Json → String → Except String Json
  | .obj fs, k =>
    match lookupF fs k with
    | some v => .ok v
    | none => .error ("KeyError: " ++ k)
  | _, _ => .error "TypeError: not subscriptable"

/-- Python iteration (for x in j): lists yield elements, dicts yield their keys,
strings yield one-character strings, everything else raises TypeError. -/
def Json.pyIter : Json → Except String (List Json)
  | .arr xs => .ok xs
  | .obj fs => .ok (fs.map fun p => .str p.1)
  | .str s => .ok (s.data.map fun c => .str ⟨[c]⟩)
  | _ => .error "TypeError: not iterable"

/-- An output row: the Python dict accumulated by extract_product, modelled as
an association list where assignment appends a binding and lookup takes the
last binding, which is observationally the dict's get/overwrite behaviour.
Keys are Json because the source uses raw document values as keys. -/
abbrev Row := List (Json × Json)

/-- Python data[k] = v (insert or overwrite). -/
def Row.set (r : Row) (k v : Json) : Row := r ++ [(k, v)]

/-- Python data.get(k): the value of the last assignment to k, if any. -/
def Row.get? : Row → Json → Option Json
  | [], _ => none
  | p :: rest, k =>
    match Row.get? rest k with
    | some v => some v
    | none => if p.1 == k then some p.2 else none

/-- Python data.update(other): assign every binding of other in order. -/
def Row.update (r s : Row) : Row := s.foldl (fun a p => Row.set a p.1 p.2) r

/-- The row of a non-raising outcome (empty row when an exception escaped). -/
def rowOf : Except String Row → Row
  | .ok r => r
  | .error _ => []

/-- The characters stripped by Python str.strip() that occur in this code base
(plain ASCII whitespace). -/
def chIsSpace (c : Char) : Bool :=
  c == ' ' || c == '\t' || c == '\n' || c == '\r'

/-- Python str.strip(). -/
def pyStrip (s : String) : String :=
  ⟨((s.data.dropWhile chIsSpace).reverse.dropWhile chIsSpace).reverse⟩

/-- Whether pat is a leading run of l (helper for the Python string tests). -/
def leadMatch : List Char → List Char → Bool
  | [], _ => true
  | _ :: _, [] => false
  | a :: as, b :: bs => a == b && leadMatch as bs

/-- Python pat in s (substring containment). -/
def listHasRun (pat : List Char) : List Char → Bool
  | [] => leadMatch pat []
  | c :: rest => leadMatch pat (c :: rest) || listHasRun pat rest

/-- Python pat in s on strings. -/
def pyContainsStr (s pat : String) : Bool := listHasRun pat.data s.data

/-- Python s.startswith(pat). -/
def pyStartsWith (s pat : String) : Bool := leadMatch pat.data s.data

/-- Python s.endswith(pat). -/
def pyEndsWith (s pat : String) : Bool := leadMatch pat.data.reverse s.data.reverse

/-- Fuel-driven worker for Python str.split(sep) with a non-empty separator:
non-overlapping, left to right. The fuel is the length of the text, which
bounds the number of steps. -/
def splitRun (sep : List Char) : Nat → List Char → List Char → List (List Char)
  | _, acc, [] => [acc.reverse]
  | 0, acc, rest => [acc.reverse ++ rest]
  | fuel + 1, acc, c :: rest =>
    if leadMatch sep (c :: rest) then
      acc.reverse :: splitRun sep fuel [] (rest.drop (sep.length - 1))
    else
      splitRun sep fuel (c :: acc) rest

/-- Python s.split(sep) for the non-empty literal separators used in app.py. -/
def pySplit (s sep : String) : List String :=
  (splitRun sep.data s.data.length [] s.data).map fun l => ⟨l⟩

/-- Python s.lower() (ASCII; only applied to the literals Cm and In). -/
def pyLower (s : String) : String := ⟨s.data.map Char.toLower⟩

/-- Python s[:n]. -/
def pyTake (s : String) (n : Nat) : String := ⟨s.data.take n⟩

/-- Python str() conversion as used by the f-string in format_size_header.
Faithful for strings, integers, booleans and None; list and dict dimensions
get a placeholder rendering no theorem relies on. -/
def pyStr : Json → String
  | .str s => s
  | .num n => toString n
  | .bool true => "True"
  | .bool false => "False"
  | .null => "None"
  | .arr _ => "[list]"
  | .obj _ => "[dict]"

/-- Python enumerate starting at n. -/
def pyEnumerate {α : Type} (n : Nat) : List α → List (Nat × α)
  | [] => []
  | x :: xs => (n, x) :: pyEnumerate (n + 1) xs

/-- app.py lines 226-230: the five top-level scalar columns; a missing key is
stored as null (Python None), a non-dict document raises. -/
def setScalars (doc : Json) (r : Row) : Except String Row := do
  let r := Row.set r (.str "productTitle") ((← doc.getM "productTitle").getD .null)
  let r := Row.set r (.str "brandName") ((← doc.getM "brandName").getD .null)
  let r := Row.set r (.str "productDescription") ((← doc.getM "productDescription").getD .null)
  let r := Row.set r (.str "productColor") ((← doc.getM "productColor").getD .null)
  let r := Row.set r (.str "styleNote") ((← doc.getM "styleNote").getD .null)
  pure r

/-- One guarded price block (app.py lines 233-234 and 235-236, which differ
only in the source and destination keys): when the field is truthy its value
sub-field is stored; a truthy non-dict raises AttributeError at the inner
.get. -/
def priceField (doc : Json) (srcKey dstKey : String) (r : Row) : Except String Row := do
  if ((← doc.getM srcKey).getD .null).truthy then
    let m ← doc.item srcKey
    pure (Row.set r (.str dstKey) ((← m.getM "value").getD .null))
  else pure r

/-- app.py lines 237-238: Discount is stored whenever dict.get yields a
non-None value (a present JSON null reads as None and is skipped). -/
def discountField (doc : Json) (r : Row) : Except String Row := do
  let d := (← doc.getM "discount").getD .null
  match d with
  | .null => pure r
  | v => pure (Row.set r (.str "Discount") v)

/-- app.py lines 233-238: MRP, Price and Discount. -/
def setPricing (doc : Json) (r : Row) : Except String Row := do
  let r ← priceField doc "mrpPrice" "MRP" r
  let r ← priceField doc "winningSellerPrice" "Price" r
  discountField doc r

/-- One breadcrumb entry (app.py line 242): Breadcrum_(i+1) takes the entry's
category_name (null when missing, AttributeError on a non-dict entry). -/
def crumbStep (acc : Row) (p : Nat × Json) : Except String Row := do
  pure (Row.set acc (.str ("Breadcrum_" ++ toString (p.1 + 1)))
    ((← p.2.getM "category_name").getD .null))

/-- app.py lines 241-242: numbered breadcrumb columns from categoryHierarchy,
1-based via enumerate, restarted for every document. -/
def setBreadcrumbs (doc : Json) (r : Row) : Except String Row := do
  let cs ← ((← doc.getM "categoryHierarchy").getD (.arr [])).pyIter
  (pyEnumerate 0 cs).foldlM crumbStep r

/-- One detail entry (app.py lines 246-249): a falsy key is skipped, otherwise
the entry's own key names the column; an unhashable key raises TypeError as
Python dict assignment does. -/
def detailStep (acc : Row) (d : Json) : Except String Row := do
  let k := (← d.getM "key").getD .null
  let v := (← d.getM "value").getD .null
  if k.truthy then
    if k.hashable then pure (Row.set acc k v)
    else .error "TypeError: unhashable type"
  else pure acc

/-- app.py lines 245-249: each detail entry's own key field names the column;
a later entry with the same key overwrites (last write wins). -/
def setDetails (doc : Json) (r : Row) : Except String Row := do
  let ds ← ((← doc.getM "details").getD (.arr [])).pyIter
  ds.foldlM detailStep r

/-- One gallery image entry (app.py lines 255-258): kept only when its key is
superZoom and its value truthy; the kept URL is https: prepended to the raw
value (a truthy non-string raises at the concatenation). -/
def imgEntryStep (acc : List String) (e : Json) : Except String (List String) := do
  if ((← e.getM "key").getD .null) == .str "superZoom" then
    let v := (← e.getM "value").getD (.str "")
    if v.truthy then
      match v with
      | .str s => pure (acc ++ ["https:" ++ s])
      | _ => .error "TypeError: can only concatenate str"
    else pure acc
  else pure acc

/-- One galleryImagesList group (app.py lines 253-258). -/
def imgGroupStep (acc : List String) (g : Json) : Except String (List String) := do
  let inner ← ((← g.getM "galleryImages").getD (.arr [])).pyIter
  inner.foldlM imgEntryStep acc

/-- app.py lines 252-258: collect the superZoom gallery URLs across all
groups, in order. -/
def collectImgs (gl : Json) : Except String (List String) := do
  let gs ← gl.pyIter
  gs.foldlM imgGroupStep []

/-- app.py lines 252-261: the numbered image columns, 1-based via enumerate
over the collected list, restarted for every document. -/
def setImages (doc : Json) (r : Row) : Except String Row := do
  let imgs ← collectImgs ((← doc.getM "galleryImagesList").getD (.arr []))
  pure ((pyEnumerate 0 imgs).foldl
    (fun acc p => Row.set acc (.str ("image_" ++ toString (p.1 + 1))) (.str p.2)) r)

/-- One mfgDetails entry (app.py line 266): a list value contributes its first
element's value field (IndexError on an empty list, TypeError/KeyError on a
malformed first element), any other value is stored as is. -/
def mfgStep (acc : Row) (p : String × Json) : Except String Row := do
  match p.2 with
  | .arr [] => .error "IndexError: list index out of range"
  | .arr (x :: _) => pure (Row.set acc (.str p.1) (← x.item "value"))
  | v => pure (Row.set acc (.str p.1) v)

/-- app.py lines 264-266: manufacturer details, flattened key by key when the
field is truthy (AttributeError on a truthy non-dict). -/
def setMfg (doc : Json) (r : Row) : Except String Row := do
  if ((← doc.getM "mfgDetails").getD .null).truthy then
    let m ← doc.item "mfgDetails"
    match m with
    | .obj ms => ms.foldlM mfgStep r
    | _ => .error "AttributeError: items"
  else pure r

/-- The Field Flattener: app.py lines 226-266, the post-parse extraction of
extract_product, threading the accumulated row through each section in source
order. An error is a Python exception escaping extract_product (this stretch
of the source is outside its try/except). -/
def flattenFields (doc : Json) (r : Row) : Except String Row := do
  let r ← setScalars doc r
  let r ← setPricing doc r
  let r ← setBreadcrumbs doc r
  let r ← setDetails doc r
  let r ← setImages doc r
  setMfg doc r

/-- app.py lines 160-163: the product identifier convention. The input is
already stripped; a tatacliq.com URL keeps everything after the last /p-
(the whole string when the marker is absent, as str.split returns the
unsplit string), anything else is used verbatim. -/
def derive_pid (raw : String) : String :=
  if pyContainsStr raw "tatacliq.com" then
    pyStrip ((pySplit raw "/p-").getLastD "")
  else pyStrip raw

/-- app.py lines 165-172: the traceability columns written before the fetch. -/
def idRow (input_value : String) : Row :=
  let product_id := derive_pid (pyStrip input_value)
  let api_url :=
    "https://www.tatacliq.com/marketplacewebservices/v2/mpl/products/productDetails/"
      ++ product_id ++ "?isPwa=true&isMDE=true&isDynamicVar=true"
  Row.set (Row.set (Row.set [] (.str "Input") (.str input_value))
    (.str "product_id") (.str product_id)) (.str "api_url") (.str api_url)

/-- The row state entering the normal-extraction stretch (app.py lines
178, 223-224): status recorded, blocked cleared, empty error. -/
def readyRow (input_value : String) (status : Int) : Row :=
  Row.set (Row.set (Row.set (idRow input_value) (.str "http_status") (.num status))
    (.str "blocked") (.bool false)) (.str "Error") (.str "")

/-- Outcome of the external safe_get collaborator: an exception (transport
failure or user stop) or a response with status code and body text. -/
inductive Fetch where
  | exc (msg : String)
  | resp (status : Int) (body : String)

/-- The Row Assembler: app.py lines 144-276. json.loads is the injected
jparse capability (none models a parse exception; the Python error strings
carry the exception text, abstracted here to their fixed prefixes), and
get_size_guide's fetch-plus-parse is the injected sg capability keyed by
product id and sizeGuideId. The error side is a Python exception escaping
extract_product. -/
def extract_product (input_value : String) (fetch : Fetch)
    (jparse : String → Option Json)
    (sg : String → Json → Except String Row) : Except String Row := do
  let raw_input := pyStrip input_value
  if raw_input == "" then
    return Row.set (Row.set [] (.str "Input") (.str input_value)) (.str "Error") (.str "Empty input")
  let r0 := idRow input_value
  match fetch with
  | .exc msg =>
    return Row.set (Row.set r0 (.str "blocked") (.bool true)) (.str "Error") (.str msg)
  | .resp status body =>
    let r1 := Row.set r0 (.str "http_status") (.num status)
    let bs := pyStrip body
    let parsed : Except Row Json :=
      if pyStartsWith bs "\x7b" && pyEndsWith bs "\x7d" then
        match jparse bs with
        | some j => .ok j
        | none =>
          .error (Row.set (Row.set (Row.set r1 (.str "blocked") (.bool true))
            (.str "Error") (.str "Raw JSON parse failed"))
            (.str "Raw_Response_Preview") (.str (pyTake bs 500)))
      else if pyContainsStr body "<p>" then
        let json_text := pyStrip ((pySplit ((pySplit body "<p>").getLastD "") "</p>").headD "")
        match jparse json_text with
        | some j => .ok j
        | none =>
          .error (Row.set (Row.set (Row.set r1 (.str "blocked") (.bool true))
            (.str "Error") (.str "<p> JSON parse failed"))
            (.str "Raw_Response_Preview") (.str (pyTake json_text 500)))
      else
        .error (Row.set (Row.set (Row.set r1 (.str "blocked") (.bool true))
          (.str "Error") (.str "Unexpected response format (not raw JSON, not <p> JSON)"))
          (.str "Raw_Response_Preview") (.str (pyTake bs 500)))
    match parsed with
    | .error row => return row
    | .ok json_data =>
      let r ← flattenFields json_data (readyRow input_value status)
      if ((← json_data.getM "sizeGuideId").getD .null).truthy then
        let sgid ← json_data.item "sizeGuideId"
        match sg (derive_pid raw_input) sgid with
        | .ok size_data => return Row.update r size_data
        | .error e => return Row.set r (.str "SizeGuide_Error") (.str e)
      else
        return r

/-- The worker-pool run (app.py lines 356-371): each input item goes through
extract_product with the shared configuration; the result list is modelled in
submission order (the pool provides no ordering guarantee and no claim
depends on one). -/
def processBatch (items : List (String × Fetch)) (jparse : String → Option Json)
    (sg : String → Json → Except String Row) : List (Except String Row) :=
  items.map fun it => extract_product it.1 it.2 jparse sg

/-- One unit's dimension table (app.py unit_data[unit]): dimension name to the
ordered value series, an insertion-ordered dict of lists. -/
abbrev DimMap := List (Json × List Json)

/-- app.py line 118: unit_data[unit].setdefault(d, []).append(v). -/
def DimMap.push (m : DimMap) (d v : Json) : DimMap :=
  if m.any fun p => p.1 == d then
    m.map fun p => if p.1 == d then (p.1, p.2 ++ [v]) else p
  else m ++ [(d, [v])]

/-- Lookup of one dimension's series; none models the Python None that
dict.get yields for an absent dimension. -/
def seriesLookup (m : DimMap) (d : Json) : Option (List Json) :=
  (m.find? fun p => p.1 == d).map fun p => p.2

/-- Python truthiness of a dimension series (None or a list). -/
def seriesTruthy : Option (List Json) → Bool
  | some l => !l.isEmpty
  | none => false

/-- The whole unit_data dict: unit label to its dimension table. -/
abbrev UnitData := List (Json × DimMap)

/-- app.py lines 83-87: the emitted column label; with a unit the label is the
f-string over the raw dimension with In expanded to Inches, without a unit the
raw dimension itself is used as the key. -/
def format_size_header (raw_dim : Json) : Option String → Json
  | some unit =>
    let unit := if pyLower unit == "in" then "Inches" else unit
    .str (pyStr raw_dim ++ " ( " ++ unit ++ " )")
  | none => raw_dim

/-- The stored column value for a series (a Python list or None). -/
def optArr : Option (List Json) → Json
  | some l => .arr l
  | none => .null

/-- One iteration of the reconciliation loop, app.py lines 126-135: the
column/value pairs emitted for a single dimension. -/
def reconcileDim (cmMap inMap : DimMap) (dim : Json) : List (Json × Json) :=
  let cm := seriesLookup cmMap dim
  let inch := seriesLookup inMap dim
  if cm == inch then
    [(format_size_header dim none, optArr cm)]
  else
    (if seriesTruthy cm then [(format_size_header dim (some "Cm"), optArr cm)] else [])
      ++ (if seriesTruthy inch then [(format_size_header dim (some "In"), optArr inch)] else [])

/-- app.py lines 115-118: one dimensionList entry appended into the current
unit's table (an unhashable dimension name would raise at dict insertion). -/
def dimStep (unit : Json) (ud : UnitData) (dimEntry : Json) : Except String UnitData := do
  let d ← dimEntry.item "dimension"
  let v ← dimEntry.item "dimensionValue"
  if d.hashable then
    pure (ud.map fun p => if p.1 == unit then (p.1, DimMap.push p.2 d v) else p)
  else .error "TypeError: unhashable type"

/-- app.py lines 110-118: one sizeGuideList entry; the brand size label is
collected once, first seen order, then the dimension values are appended. -/
def sizeStep (unit : Json) (st : UnitData × List Json) (size_name : Json) :
    Except String (UnitData × List Json) := do
  let size ← size_name.item "dimensionSize"
  let ms := if st.2.any fun x => x == size then st.2 else st.2 ++ [size]
  let dl ← (← size_name.item "dimensionList").pyIter
  let ud ← dl.foldlM (dimStep unit) st.1
  pure (ud, ms)

/-- app.py lines 104-118: one unitList entry (one measurement unit). -/
def unitStep (st : UnitData × List Json) (size_map : Json) :
    Except String (UnitData × List Json) := do
  let unit ← size_map.item "displaytext"
  if unit.hashable then
    let ud := if st.1.any fun p => p.1 == unit then st.1 else st.1 ++ [(unit, [])]
    let sgl ← (← size_map.item "sizeGuideList").pyIter
    sgl.foldlM (sizeStep unit) (ud, st.2)
  else .error "TypeError: unhashable type"

/-- app.py line 123: set(cm dims) union set(in dims), rendered in first-seen
order; Python set iteration order is unspecified and no claim depends on it. -/
def dimsUnion (cmMap inMap : DimMap) : List Json :=
  cmMap.map (fun p => p.1)
    ++ (inMap.map (fun p => p.1)).filter fun d => !(cmMap.any fun p => p.1 == d)

/-- The Size-Chart Reconciler: get_size_guide after its fetch, app.py lines
99-138, applied to the parsed size-guide document (res.json()); an error is a
Python exception, caught by extract_product's size-guide handler. -/
def get_size_guide_core (js : Json) : Except String Row := do
  let ul ← (← js.item "sizeGuideTabularWsData").item "unitList"
  let elems ← ul.pyIter
  let st ← elems.foldlM unitStep ([], [])
  let cmMap := ((st.1.find? fun p => p.1 == .str "Cm").map fun p => p.2).getD []
  let inMap := ((st.1.find? fun p => p.1 == .str "In").map fun p => p.2).getD []
  let final : Row := [(.str "Brand Size", .arr st.2)]
  let final := (dimsUnion cmMap inMap).foldl
    (fun acc dim => (reconcileDim cmMap inMap dim).foldl (fun a p => Row.set a p.1 p.2) acc)
    final
  pure (Row.set final (.str "measurement_image") ((← js.getM "imageURL").getD .null))

/-- The five scalar columns as appended when none of the five keys is present
(each stored as Python None). -/
def scalarNulls : Row :=
  [(.str "productTitle", .null), (.str "brandName", .null),
   (.str "productDescription", .null), (.str "productColor", .null),
   (.str "styleNote", .null)]

/-- A detail entry with the given key and value fields. -/
def mkDetail (p : String × Json) : Json := .obj [("key", .str p.1), ("value", p.2)]

/-- The columns the details loop appends for entries with the given keys and
values: falsy (empty) keys skipped, one column per surviving entry. -/
def detailsBlock (es : List (String × Json)) : Row :=
  (es.filter fun p => !(p.1 == "")).map fun p => (.str p.1, p.2)

/-- The value of the last entry carrying key k (what last-write-wins should
leave in the row). -/
def lastAssoc : List (String × Json) → String → Option Json
  | [], _ => none
  | p :: rest, k =>
    match lastAssoc rest k with
    | some v => some v
    | none => if p.1 == k then some p.2 else none

/-- A gallery image entry with the given key and value fields. -/
def mkGalleryEntry (p : String × String) : Json :=
  .obj [("key", .str p.1), ("value", .str p.2)]

/-- A galleryImagesList document section: one group per inner list. -/
def mkGallery (gs : List (List (String × String))) : Json :=
  .arr (gs.map fun g => .obj [("galleryImages", .arr (g.map mkGalleryEntry))])

/-- The image URLs one gallery group should contribute: exactly its superZoom
entries with a non-empty value, in order, each prefixed with https:. -/
def keptOne (g : List (String × String)) : List String :=
  (g.filter fun p => p.1 == "superZoom" && !(p.2 == "")).map fun p => "https:" ++ p.2

/-- The image URLs the gallery section should keep across all groups. -/
def keptImgs (gs : List (List (String × String))) : List String :=
  ((gs.flatten).filter fun p => p.1 == "superZoom" && !(p.2 == "")).map
    fun p => "https:" ++ p.2

/-- The numbered image columns for a list of kept URLs: image_1 .. image_N,
contiguous 1-based indices in list order. -/
def imageBlock (imgs : List String) : Row :=
  (pyEnumerate 0 imgs).map fun p => (.str ("image_" ++ toString (p.1 + 1)), .str p.2)

/-- A truthy present price field must be a dict for the inner .get to succeed. -/
def priceShapeOk (fs : List (String × Json)) (key : String) : Bool :=
  match lookupF fs key with
  | some v => !v.truthy || v.isObj
  | none => true

/-- categoryHierarchy, when present, must be a list of dicts. -/
def chShapeOk (fs : List (String × Json)) : Bool :=
  match lookupF fs "categoryHierarchy" with
  | none => true
  | some (.arr cs) => cs.all fun c => c.isObj
  | some _ => false

/-- One detail entry is safe when it is a dict whose key field is hashable. -/
def detailEntryOk (d : Json) : Bool :=
  match d with
  | .obj dfs => ((lookupF dfs "key").getD .null).hashable
  | _ => false

/-- details, when present, must be a list of safe detail entries. -/
def detailsShapeOk (fs : List (String × Json)) : Bool :=
  match lookupF fs "details" with
  | none => true
  | some (.arr ds) => ds.all detailEntryOk
  | some _ => false

/-- A superZoom entry's value must be a string or falsy (anything else hits
the string concatenation). -/
def imgValOk : Json → Bool
  | .str _ => true
  | v => !v.truthy

/-- One gallery image entry is safe when it is a dict whose value, if the
entry is a kept superZoom one, can be concatenated. -/
def imgEntryOk (e : Json) : Bool :=
  match e with
  | .obj efs =>
    (if ((lookupF efs "key").getD .null) == .str "superZoom" then
       imgValOk ((lookupF efs "value").getD (.str ""))
     else true)
  | _ => false

/-- One galleryImagesList group is safe when it is a dict whose galleryImages
is absent or a list of safe entries. -/
def imgGroupOk (g : Json) : Bool :=
  match g with
  | .obj gfs =>
    (match lookupF gfs "galleryImages" with
     | none => true
     | some (.arr ks) => ks.all imgEntryOk
     | some _ => false)
  | _ => false

/-- galleryImagesList, when present, must be a list of safe groups. -/
def galleryShapeOk (fs : List (String × Json)) : Bool :=
  match lookupF fs "galleryImagesList" with
  | none => true
  | some (.arr gs) => gs.all imgGroupOk
  | some _ => false

/-- A non-empty mfg list value must be headed by a dict carrying a value
field. -/
def mfgHeadOk (x : Json) : Bool :=
  match x with
  | .obj xfs => (lookupF xfs "value").isSome
  | _ => false

/-- One mfgDetails value is safe when it is not a list, or a non-empty list
with a safe head. -/
def mfgValOk : Json → Bool
  | .arr [] => false
  | .arr (x :: _) => mfgHeadOk x
  | _ => true

/-- The mfgDetails field must be a dict with safe values. -/
def mfgTableOk : Json → Bool
  | .obj ms => ms.all fun p => mfgValOk p.2
  | _ => false

/-- mfgDetails, when truthy, must be a safe table. -/
def mfgShapeOk (fs : List (String × Json)) : Bool :=
  let m := (lookupF fs "mfgDetails").getD .null
  !m.truthy || mfgTableOk m

/-- A document on which every field dereference performed by the Field
Flattener is well-typed: each recognized section, when present and truthy,
has the container shape the code expects. Arbitrary extra fields and missing
fields remain allowed. -/
def wellShaped : Json → Bool
  | .obj fs =>
    priceShapeOk fs "mrpPrice" && priceShapeOk fs "winningSellerPrice"
      && chShapeOk fs && detailsShapeOk fs && galleryShapeOk fs && mfgShapeOk fs
  | _ => false

mutual
theorem Json.beq_refl : ∀ j : Json, Json.beq j j = true
  | .null => rfl
  | .bool b => by simp [Json.beq]
  | .num n => by simp [Json.beq]
  | .str s => by simp [Json.beq]
  | .arr xs => Json.beqList_refl xs
  | .obj fs => Json.beqObj_refl fs
theorem Json.beqList_refl : ∀ l : List Json, Json.beqList l l = true
  | [] => rfl
  | a :: as => by
    simp only [Json.beqList, Bool.and_eq_true]
    exact ⟨Json.beq_refl a, Json.beqList_refl as⟩
theorem Json.beqObj_refl : ∀ l : List (String × Json), Json.beqObj l l = true
  | [] => rfl
  | a :: as => by
    simp only [Json.beqObj, Bool.and_eq_true]
    exact ⟨⟨beq_self_eq_true a.1, Json.beq_refl a.2⟩, Json.beqObj_refl as⟩
end

theorem json_beq_self (j : Json) : (j == j) = true := Json.beq_refl j

theorem json_beq_str (a b : String) : ((Json.str a) == (Json.str b)) = (a == b) := rfl

theorem ebind_ok {α β : Type} (a : α) (f : α → Except String β) :
    (Except.ok a >>= f) = f a := rfl

theorem ebind_error {α β : Type} (e : String) (f : α → Except String β) :
    ((Except.error e : Except String α) >>= f) = Except.error e := rfl

theorem row_get_append_some {s : Row} {k v : Json} (r : Row)
    (h : Row.get? s k = some v) : Row.get? (r ++ s) k = some v := by
  induction r with
  | nil => simpa using h
  | cons p r ih => simp [Row.get?, ih]

theorem row_get_append_none {s : Row} {k : Json} (r : Row)
    (h : Row.get? s k = none) : Row.get? (r ++ s) k = Row.get? r k := by
  induction r with
  | nil => simpa using h
  | cons p r ih => simp [Row.get?, ih]

theorem row_get_set_same (r : Row) (k v : Json) :
    Row.get? (Row.set r k v) k = some v := by
  apply row_get_append_some
  simp [Row.get?, json_beq_self]

theorem row_get_set_ne (r : Row) (k v q : Json) (h : (k == q) = false) :
    Row.get? (Row.set r k v) q = Row.get? r q := by
  apply row_get_append_none
  simp [Row.get?, h]

theorem row_update_eq_append (r s : Row) : Row.update r s = r ++ s := by
  induction s generalizing r with
  | nil => simp [Row.update]
  | cons p s ih =>
    have h : Row.update r (p :: s) = Row.update (Row.set r p.1 p.2) s := rfl
    rw [h, ih, Row.set]
    simp

theorem foldlM_ok_all {α β : Type} (f : β → α → Except String β) (l : List α)
    (h : ∀ a ∈ l, ∀ b, ∃ b', f b a = Except.ok b') :
    ∀ init : β, ∃ r, List.foldlM f init l = Except.ok r := by
  induction l with
  | nil => exact fun init => ⟨init, rfl⟩
  | cons a as ih =>
    intro init
    obtain ⟨b', hb⟩ := h a (List.mem_cons_self a as) init
    obtain ⟨r, hr⟩ := ih (fun x hx b => h x (List.mem_cons_of_mem a hx) b) b'
    refine ⟨r, ?_⟩
    show (f init a >>= fun b => List.foldlM f b as) = Except.ok r
    rw [hb, ebind_ok]
    exact hr

theorem detail_fold_eval (es : List (String × Json)) :
    ∀ acc : Row, List.foldlM detailStep acc (es.map mkDetail)
      = Except.ok (acc ++ detailsBlock es) := by
  induction es with
  | nil => intro acc; simp [detailsBlock]; rfl
  | cons p es ih =>
    intro acc
    show (detailStep acc (mkDetail p) >>= fun b => List.foldlM detailStep b (es.map mkDetail))
        = Except.ok (acc ++ detailsBlock (p :: es))
    cases hc : (p.1 == "") with
    | true =>
      have hstep : detailStep acc (mkDetail p) = Except.ok acc := by
        show (if (!(p.1 == "")) = true then Except.ok (Row.set acc (.str p.1) p.2)
              else Except.ok acc) = Except.ok acc
        simp [hc]
      rw [hstep, ebind_ok, ih acc]
      simp [detailsBlock, List.filter_cons, hc]
    | false =>
      have hstep : detailStep acc (mkDetail p) = Except.ok (Row.set acc (.str p.1) p.2) := by
        show (if (!(p.1 == "")) = true then Except.ok (Row.set acc (.str p.1) p.2)
              else Except.ok acc) = Except.ok (Row.set acc (.str p.1) p.2)
        simp [hc]
      rw [hstep, ebind_ok, ih (Row.set acc (.str p.1) p.2)]
      simp [detailsBlock, List.filter_cons, hc, Row.set]

theorem epure_ok {α : Type} (a : α) : (pure a : Except String α) = Except.ok a := rfl

theorem imgEntry_fold_eval (g : List (String × String)) :
    ∀ acc : List String, List.foldlM imgEntryStep acc (g.map mkGalleryEntry)
      = Except.ok (acc ++ keptOne g) := by
  induction g with
  | nil => intro acc; simp [keptOne]; rfl
  | cons p g ih =>
    intro acc
    show (imgEntryStep acc (mkGalleryEntry p)
        >>= fun b => List.foldlM imgEntryStep b (g.map mkGalleryEntry))
      = Except.ok (acc ++ keptOne (p :: g))
    have hshape : imgEntryStep acc (mkGalleryEntry p)
        = if (p.1 == "superZoom") = true then
            (if (!(p.2 == "")) = true then Except.ok (acc ++ ["https:" ++ p.2])
             else Except.ok acc)
          else Except.ok acc := rfl
    cases hc1 : (p.1 == "superZoom") with
    | false =>
      have hstep : imgEntryStep acc (mkGalleryEntry p) = Except.ok acc := by
        rw [hshape]; simp [hc1]
      rw [hstep, ebind_ok, ih acc]
      simp [keptOne, List.filter_cons, hc1]
    | true =>
      cases hc2 : (p.2 == "") with
      | true =>
        have hstep : imgEntryStep acc (mkGalleryEntry p) = Except.ok acc := by
          rw [hshape]; simp [hc1, hc2]
        rw [hstep, ebind_ok, ih acc]
        simp [keptOne, List.filter_cons, hc1, hc2]
      | false =>
        have hstep : imgEntryStep acc (mkGalleryEntry p)
            = Except.ok (acc ++ ["https:" ++ p.2]) := by
          rw [hshape]; simp [hc1, hc2]
        rw [hstep, ebind_ok, ih (acc ++ ["https:" ++ p.2])]
        simp [keptOne, List.filter_cons, hc1, hc2]

theorem keptImgs_cons (g : List (String × String)) (gs : List (List (String × String))) :
    keptImgs (g :: gs) = keptOne g ++ keptImgs gs := by
  simp [keptImgs, keptOne, List.filter_append]

theorem imgGroup_fold_eval (gs : List (List (String × String))) :
    ∀ acc : List String,
      List.foldlM imgGroupStep acc
        (gs.map fun g => Json.obj [("galleryImages", Json.arr (g.map mkGalleryEntry))])
      = Except.ok (acc ++ keptImgs gs) := by
  induction gs with
  | nil => intro acc; simp [keptImgs]; rfl
  | cons g gs ih =>
    intro acc
    show (imgGroupStep acc (Json.obj [("galleryImages", Json.arr (g.map mkGalleryEntry))])
        >>= fun b => List.foldlM imgGroupStep b
          (gs.map fun g => Json.obj [("galleryImages", Json.arr (g.map mkGalleryEntry))]))
      = Except.ok (acc ++ keptImgs (g :: gs))
    have hstep : imgGroupStep acc (Json.obj [("galleryImages", Json.arr (g.map mkGalleryEntry))])
        = Except.ok (acc ++ keptOne g) := imgEntry_fold_eval g acc
    rw [hstep, ebind_ok, ih (acc ++ keptOne g), keptImgs_cons]
    simp

theorem collect_imgs_eval (gs : List (List (String × String))) :
    collectImgs (mkGallery gs) = Except.ok (keptImgs gs) := by
  show List.foldlM imgGroupStep []
      (gs.map fun g => Json.obj [("galleryImages", Json.arr (g.map mkGalleryEntry))])
    = Except.ok (keptImgs gs)
  simpa using imgGroup_fold_eval gs []

theorem image_fold_enum (imgs : List String) :
    ∀ (n : Nat) (r : Row),
      (pyEnumerate n imgs).foldl
        (fun acc p => Row.set acc (.str ("image_" ++ toString (p.1 + 1))) (.str p.2)) r
      = r ++ (pyEnumerate n imgs).map
          (fun p => (.str ("image_" ++ toString (p.1 + 1)), .str p.2)) := by
  induction imgs with
  | nil => intro n r; simp [pyEnumerate]
  | cons u us ih =>
    intro n r
    simp only [pyEnumerate, List.foldl_cons, List.map_cons]
    rw [ih (n + 1) (Row.set r (.str ("image_" ++ toString (n + 1))) (.str u))]
    simp [Row.set]

theorem setScalars_eval (fs : List (String × Json)) (r : Row) :
    setScalars (.obj fs) r = Except.ok
      (r ++ [(.str "productTitle", (lookupF fs "productTitle").getD .null),
             (.str "brandName", (lookupF fs "brandName").getD .null),
             (.str "productDescription", (lookupF fs "productDescription").getD .null),
             (.str "productColor", (lookupF fs "productColor").getD .null),
             (.str "styleNote", (lookupF fs "styleNote").getD .null)]) := by
  show Except.ok (Row.set (Row.set (Row.set (Row.set (Row.set r
      (.str "productTitle") ((lookupF fs "productTitle").getD .null))
      (.str "brandName") ((lookupF fs "brandName").getD .null))
      (.str "productDescription") ((lookupF fs "productDescription").getD .null))
      (.str "productColor") ((lookupF fs "productColor").getD .null))
      (.str "styleNote") ((lookupF fs "styleNote").getD .null)) = _
  simp [Row.set]

theorem setPricing_noop (fs : List (String × Json)) (r : Row)
    (h1 : lookupF fs "mrpPrice" = none) (h2 : lookupF fs "winningSellerPrice" = none)
    (h3 : lookupF fs "discount" = none) :
    setPricing (.obj fs) r = Except.ok r := by
  simp [setPricing, priceField, discountField, Json.getM, h1, h2, h3, Json.truthy]
  rfl

theorem setBreadcrumbs_noop (fs : List (String × Json)) (r : Row)
    (h : lookupF fs "categoryHierarchy" = none) :
    setBreadcrumbs (.obj fs) r = Except.ok r := by
  simp [setBreadcrumbs, Json.getM, h]
  rfl

theorem setDetails_noop (fs : List (String × Json)) (r : Row)
    (h : lookupF fs "details" = none) :
    setDetails (.obj fs) r = Except.ok r := by
  simp [setDetails, Json.getM, h]
  rfl

theorem setImages_noop (fs : List (String × Json)) (r : Row)
    (h : lookupF fs "galleryImagesList" = none) :
    setImages (.obj fs) r = Except.ok r := by
  simp [setImages, Json.getM, h]
  rfl

theorem setMfg_noop (fs : List (String × Json)) (r : Row)
    (h : lookupF fs "mfgDetails" = none) :
    setMfg (.obj fs) r = Except.ok r := by
  simp [setMfg, Json.getM, h, Json.truthy]
  rfl

theorem setDetails_eval (fs : List (String × Json)) (r : Row) (es : List (String × Json))
    (h : lookupF fs "details" = some (.arr (es.map mkDetail))) :
    setDetails (.obj fs) r = Except.ok (r ++ detailsBlock es) := by
  show ((Json.getM (.obj fs) "details" >>= fun o =>
      (o.getD (.arr [])).pyIter) >>= fun ds => List.foldlM detailStep r ds)
    = Except.ok (r ++ detailsBlock es)
  have h0 : Json.getM (.obj fs) "details" = Except.ok (some (.arr (es.map mkDetail))) := by
    simp [Json.getM, h]
  rw [h0, ebind_ok]
  rw [show (((some (Json.arr (es.map mkDetail))).getD (.arr [])).pyIter)
      = Except.ok (es.map mkDetail) from rfl]
  rw [ebind_ok]
  exact detail_fold_eval es r

theorem setImages_eval (fs : List (String × Json)) (r : Row) (g : Json) (l : List String)
    (hg : lookupF fs "galleryImagesList" = some g) (hc : collectImgs g = Except.ok l) :
    setImages (.obj fs) r = Except.ok (r ++ imageBlock l) := by
  show ((Json.getM (.obj fs) "galleryImagesList" >>= fun o =>
      collectImgs (o.getD (.arr []))) >>= fun imgs =>
        pure ((pyEnumerate 0 imgs).foldl
          (fun acc p => Row.set acc (.str ("image_" ++ toString (p.1 + 1))) (.str p.2)) r))
    = Except.ok (r ++ imageBlock l)
  have h0 : Json.getM (.obj fs) "galleryImagesList" = Except.ok (some g) := by
    simp [Json.getM, hg]
  rw [h0, ebind_ok]
  rw [show ((some g).getD (Json.arr [])) = g from rfl]
  rw [hc, ebind_ok, epure_ok, image_fold_enum l 0 r]
  rfl

theorem flatten_chain (doc : Json) (r a b c d e f : Row)
    (h1 : setScalars doc r = Except.ok a) (h2 : setPricing doc a = Except.ok b)
    (h3 : setBreadcrumbs doc b = Except.ok c) (h4 : setDetails doc c = Except.ok d)
    (h5 : setImages doc d = Except.ok e) (h6 : setMfg doc e = Except.ok f) :
    flattenFields doc r = Except.ok f := by
  show (setScalars doc r >>= fun r => setPricing doc r >>= fun r =>
      setBreadcrumbs doc r >>= fun r => setDetails doc r >>= fun r =>
        setImages doc r >>= fun r => setMfg doc r) = Except.ok f
  rw [h1, ebind_ok, h2, ebind_ok, h3, ebind_ok, h4, ebind_ok, h5, ebind_ok, h6]

theorem flatten_details_doc (es : List (String × Json)) (r : Row) :
    flattenFields (.obj [("details", .arr (es.map mkDetail))]) r
      = Except.ok ((r ++ scalarNulls) ++ detailsBlock es) := by
  apply flatten_chain _ r (r ++ scalarNulls) (r ++ scalarNulls) (r ++ scalarNulls)
      ((r ++ scalarNulls) ++ detailsBlock es) ((r ++ scalarNulls) ++ detailsBlock es)
  · exact (setScalars_eval _ r).trans rfl
  · exact setPricing_noop _ _ rfl rfl rfl
  · exact setBreadcrumbs_noop _ _ rfl
  · exact setDetails_eval _ _ es rfl
  · exact setImages_noop _ _ rfl
  · exact setMfg_noop _ _ rfl

theorem flatten_gallery_any (g : Json) (l : List String) (r : Row)
    (hc : collectImgs g = Except.ok l) :
    flattenFields (.obj [("galleryImagesList", g)]) r
      = Except.ok ((r ++ scalarNulls) ++ imageBlock l) := by
  apply flatten_chain _ r (r ++ scalarNulls) (r ++ scalarNulls) (r ++ scalarNulls)
      (r ++ scalarNulls) ((r ++ scalarNulls) ++ imageBlock l)
  · exact (setScalars_eval _ r).trans rfl
  · exact setPricing_noop _ _ rfl rfl rfl
  · exact setBreadcrumbs_noop _ _ rfl
  · exact setDetails_noop _ _ rfl
  · exact setImages_eval _ _ g l rfl hc
  · exact setMfg_noop _ _ rfl

theorem extract_empty (inp : String) (f : Fetch) (jparse : String → Option Json)
    (sg : String → Json → Except String Row) (h : (pyStrip inp == "") = true) :
    extract_product inp f jparse sg
      = Except.ok [(.str "Input", .str inp), (.str "Error", .str "Empty input")] := by
  simp [extract_product, h, Row.set, epure_ok]

theorem extract_exc (inp msg : String) (jparse : String → Option Json)
    (sg : String → Json → Except String Row) (h : (pyStrip inp == "") = false) :
    extract_product inp (.exc msg) jparse sg
      = Except.ok (Row.set (Row.set (idRow inp) (.str "blocked") (.bool true))
          (.str "Error") (.str msg)) := by
  simp [extract_product, h, epure_ok]
  rfl

theorem extract_parsed (inp b : String) (st : Int) (jparse : String → Option Json)
    (sg : String → Json → Except String Row) (doc : Json)
    (h0 : (pyStrip inp == "") = false)
    (h1 : (pyStartsWith (pyStrip b) "\x7b" && pyEndsWith (pyStrip b) "\x7d") = true)
    (h2 : jparse (pyStrip b) = some doc) :
    extract_product inp (.resp st b) jparse sg
      = (flattenFields doc (readyRow inp st) >>= fun r =>
          (doc.getM "sizeGuideId" >>= fun o =>
            if (o.getD Json.null).truthy = true then
              (doc.item "sizeGuideId" >>= fun sgid =>
                match sg (derive_pid (pyStrip inp)) sgid with
                | Except.ok size_data => pure (Row.update r size_data)
                | Except.error e => pure (Row.set r (.str "SizeGuide_Error") (.str e)))
            else pure r)) := by
  simp [extract_product, h0, h1, h2, readyRow]

theorem foldlM_extends {α : Type} (step : Row → α → Except String Row)
    (hstep : ∀ acc x acc', step acc x = Except.ok acc' → ∃ t, acc' = acc ++ t) :
    ∀ (l : List α) (acc acc' : Row),
      List.foldlM step acc l = Except.ok acc' → ∃ t, acc' = acc ++ t := by
  intro l
  induction l with
  | nil =>
    intro acc acc' h
    have h0 : (Except.ok acc : Except String Row) = Except.ok acc' := h
    injection h0 with h0
    exact ⟨[], by simp [h0]⟩
  | cons a as ih =>
    intro acc acc' h
    have h0 : (step acc a >>= fun b => List.foldlM step b as) = Except.ok acc' := h
    cases hs : step acc a with
    | error e => rw [hs, ebind_error] at h0; cases h0
    | ok b =>
      rw [hs, ebind_ok] at h0
      obtain ⟨t1, ht1⟩ := hstep acc a b hs
      obtain ⟨t2, ht2⟩ := ih b acc' h0
      exact ⟨t1 ++ t2, by rw [ht2, ht1]; simp⟩

theorem crumbStep_extends (acc : Row) (p : Nat × Json) (acc' : Row)
    (h : crumbStep acc p = Except.ok acc') : ∃ t, acc' = acc ++ t := by
  have h0 : (p.2.getM "category_name" >>= fun x =>
      pure (Row.set acc (.str ("Breadcrum_" ++ toString (p.1 + 1))) (x.getD .null)))
      = Except.ok acc' := h
  cases hg : p.2.getM "category_name" with
  | error e => rw [hg, ebind_error] at h0; cases h0
  | ok o =>
    rw [hg, ebind_ok, epure_ok] at h0
    injection h0 with h0
    exact ⟨_, h0.symm⟩

theorem detailStep_extends (acc : Row) (d : Json) (acc' : Row)
    (h : detailStep acc d = Except.ok acc') : ∃ t, acc' = acc ++ t := by
  have h0 : (d.getM "key" >>= fun k0 => d.getM "value" >>= fun v0 =>
      if ((k0.getD .null).truthy) = true then
        (if ((k0.getD .null).hashable) = true then pure (Row.set acc (k0.getD .null) (v0.getD .null))
         else Except.error "TypeError: unhashable type")
      else pure acc) = Except.ok acc' := h
  cases hk : d.getM "key" with
  | error e => rw [hk, ebind_error] at h0; cases h0
  | ok k0 =>
    rw [hk, ebind_ok] at h0
    cases hv : d.getM "value" with
    | error e => rw [hv, ebind_error] at h0; cases h0
    | ok v0 =>
      rw [hv, ebind_ok] at h0
      cases hT : ((k0.getD Json.null).truthy) with
      | false =>
        simp only [hT, Bool.false_eq_true, if_false] at h0
        rw [epure_ok] at h0
        injection h0 with h0
        exact ⟨[], by simp [← h0]⟩
      | true =>
        simp only [hT, if_true] at h0
        cases hH : ((k0.getD Json.null).hashable) with
        | false => simp [hH] at h0
        | true =>
          simp only [hH, if_true] at h0
          rw [epure_ok] at h0
          injection h0 with h0
          exact ⟨_, h0.symm⟩

theorem mfgStep_extends (acc : Row) (p : String × Json) (acc' : Row)
    (h : mfgStep acc p = Except.ok acc') : ∃ t, acc' = acc ++ t := by
  cases hv : p.2 with
  | arr xs =>
    cases xs with
    | nil =>
      have h0 : (Except.error "IndexError: list index out of range" : Except String Row)
          = Except.ok acc' := by rw [← h]; simp [mfgStep, hv, epure_ok]
      cases h0
    | cons x rest =>
      have h0 : (x.item "value" >>= fun y => pure (Row.set acc (.str p.1) y))
          = Except.ok acc' := by rw [← h]; simp [mfgStep, hv, epure_ok]
      cases hi : x.item "value" with
      | error e => rw [hi, ebind_error] at h0; cases h0
      | ok y =>
        rw [hi, ebind_ok, epure_ok] at h0
        injection h0 with h0
        exact ⟨_, h0.symm⟩
  | null =>
    have h0 : (Except.ok (Row.set acc (.str p.1) Json.null) : Except String Row)
        = Except.ok acc' := by rw [← h]; simp [mfgStep, hv, epure_ok]
    injection h0 with h0
    exact ⟨_, h0.symm⟩
  | bool b =>
    have h0 : (Except.ok (Row.set acc (.str p.1) (.bool b)) : Except String Row)
        = Except.ok acc' := by rw [← h]; simp [mfgStep, hv, epure_ok]
    injection h0 with h0
    exact ⟨_, h0.symm⟩
  | num n =>
    have h0 : (Except.ok (Row.set acc (.str p.1) (.num n)) : Except String Row)
        = Except.ok acc' := by rw [← h]; simp [mfgStep, hv, epure_ok]
    injection h0 with h0
    exact ⟨_, h0.symm⟩
  | str s =>
    have h0 : (Except.ok (Row.set acc (.str p.1) (.str s)) : Except String Row)
        = Except.ok acc' := by rw [← h]; simp [mfgStep, hv, epure_ok]
    injection h0 with h0
    exact ⟨_, h0.symm⟩
  | obj fs =>
    have h0 : (Except.ok (Row.set acc (.str p.1) (.obj fs)) : Except String Row)
        = Except.ok acc' := by rw [← h]; simp [mfgStep, hv, epure_ok]
    injection h0 with h0
    exact ⟨_, h0.symm⟩

theorem extTrans {a b c : Row} (h1 : ∃ t, b = a ++ t) (h2 : ∃ t, c = b ++ t) :
    ∃ t, c = a ++ t := by
  obtain ⟨t1, ht1⟩ := h1
  obtain ⟨t2, ht2⟩ := h2
  exact ⟨t1 ++ t2, by rw [ht2, ht1, List.append_assoc]⟩

theorem setScalars_extends (doc : Json) (r r' : Row)
    (h : setScalars doc r = Except.ok r') : ∃ t, r' = r ++ t := by
  cases doc with
  | obj fs =>
    rw [setScalars_eval] at h
    injection h with h
    exact ⟨_, h.symm⟩
  | null => cases h
  | bool b => cases h
  | num n => cases h
  | str s => cases h
  | arr xs => cases h

theorem priceField_extends (doc : Json) (sk dk : String) (r r' : Row)
    (h : priceField doc sk dk r = Except.ok r') : ∃ t, r' = r ++ t := by
  have h0 : (doc.getM sk >>= fun o =>
      if ((o.getD Json.null).truthy) = true then
        (doc.item sk >>= fun m => (m.getM "value" >>= fun x =>
          pure (Row.set r (.str dk) (x.getD .null))))
      else pure r) = Except.ok r' := h
  cases hg : doc.getM sk with
  | error e => rw [hg, ebind_error] at h0; cases h0
  | ok o =>
    rw [hg, ebind_ok] at h0
    cases hT : (o.getD Json.null).truthy with
    | false =>
      simp only [hT, Bool.false_eq_true, if_false] at h0
      rw [epure_ok] at h0
      injection h0 with h0
      exact ⟨[], by simp [← h0]⟩
    | true =>
      simp only [hT, if_true] at h0
      cases hi : doc.item sk with
      | error e => rw [hi, ebind_error] at h0; cases h0
      | ok m =>
        rw [hi, ebind_ok] at h0
        cases hv : m.getM "value" with
        | error e => rw [hv, ebind_error] at h0; cases h0
        | ok x =>
          rw [hv, ebind_ok, epure_ok] at h0
          injection h0 with h0
          exact ⟨_, h0.symm⟩

theorem discountField_extends (doc : Json) (r r' : Row)
    (h : discountField doc r = Except.ok r') : ∃ t, r' = r ++ t := by
  have h0 : (doc.getM "discount" >>= fun o =>
      match o.getD Json.null with
      | .null => pure r
      | v => pure (Row.set r (.str "Discount") v)) = Except.ok r' := h
  cases hg : doc.getM "discount" with
  | error e => rw [hg, ebind_error] at h0; cases h0
  | ok o =>
    rw [hg, ebind_ok] at h0
    cases hD : o.getD Json.null with
    | null =>
      simp only [hD, epure_ok] at h0
      injection h0 with h0
      exact ⟨[], by simp [← h0]⟩
    | bool b =>
      simp only [hD, epure_ok] at h0
      injection h0 with h0
      exact ⟨_, h0.symm⟩
    | num n =>
      simp only [hD, epure_ok] at h0
      injection h0 with h0
      exact ⟨_, h0.symm⟩
    | str s =>
      simp only [hD, epure_ok] at h0
      injection h0 with h0
      exact ⟨_, h0.symm⟩
    | arr xs =>
      simp only [hD, epure_ok] at h0
      injection h0 with h0
      exact ⟨_, h0.symm⟩
    | obj fs =>
      simp only [hD, epure_ok] at h0
      injection h0 with h0
      exact ⟨_, h0.symm⟩

theorem setPricing_extends (doc : Json) (r r' : Row)
    (h : setPricing doc r = Except.ok r') : ∃ t, r' = r ++ t := by
  have h0 : (priceField doc "mrpPrice" "MRP" r >>= fun r =>
      priceField doc "winningSellerPrice" "Price" r >>= fun r =>
        discountField doc r) = Except.ok r' := h
  cases h1 : priceField doc "mrpPrice" "MRP" r with
  | error e => rw [h1, ebind_error] at h0; cases h0
  | ok r1 =>
    rw [h1, ebind_ok] at h0
    cases h2 : priceField doc "winningSellerPrice" "Price" r1 with
    | error e => rw [h2, ebind_error] at h0; cases h0
    | ok r2 =>
      rw [h2, ebind_ok] at h0
      exact extTrans (priceField_extends _ _ _ _ _ h1)
        (extTrans (priceField_extends _ _ _ _ _ h2) (discountField_extends _ _ _ h0))

theorem setBreadcrumbs_extends (doc : Json) (r r' : Row)
    (h : setBreadcrumbs doc r = Except.ok r') : ∃ t, r' = r ++ t := by
  have h0 : (doc.getM "categoryHierarchy" >>= fun o =>
      (o.getD (.arr [])).pyIter >>= fun cs =>
        List.foldlM crumbStep r (pyEnumerate 0 cs)) = Except.ok r' := h
  cases hg : doc.getM "categoryHierarchy" with
  | error e => rw [hg, ebind_error] at h0; cases h0
  | ok o =>
    rw [hg, ebind_ok] at h0
    cases hit : (o.getD (Json.arr [])).pyIter with
    | error e => rw [hit, ebind_error] at h0; cases h0
    | ok cs =>
      rw [hit, ebind_ok] at h0
      exact foldlM_extends crumbStep crumbStep_extends _ _ _ h0

theorem setDetails_extends (doc : Json) (r r' : Row)
    (h : setDetails doc r = Except.ok r') : ∃ t, r' = r ++ t := by
  have h0 : (doc.getM "details" >>= fun o =>
      (o.getD (.arr [])).pyIter >>= fun ds =>
        List.foldlM detailStep r ds) = Except.ok r' := h
  cases hg : doc.getM "details" with
  | error e => rw [hg, ebind_error] at h0; cases h0
  | ok o =>
    rw [hg, ebind_ok] at h0
    cases hit : (o.getD (Json.arr [])).pyIter with
    | error e => rw [hit, ebind_error] at h0; cases h0
    | ok ds =>
      rw [hit, ebind_ok] at h0
      exact foldlM_extends detailStep detailStep_extends _ _ _ h0

theorem setImages_extends (doc : Json) (r r' : Row)
    (h : setImages doc r = Except.ok r') : ∃ t, r' = r ++ t := by
  have h0 : (doc.getM "galleryImagesList" >>= fun o =>
      collectImgs (o.getD (.arr [])) >>= fun imgs =>
        pure ((pyEnumerate 0 imgs).foldl
          (fun acc p => Row.set acc (.str ("image_" ++ toString (p.1 + 1))) (.str p.2)) r))
      = Except.ok r' := h
  cases hg : doc.getM "galleryImagesList" with
  | error e => rw [hg, ebind_error] at h0; cases h0
  | ok o =>
    rw [hg, ebind_ok] at h0
    cases hc : collectImgs (o.getD (Json.arr [])) with
    | error e => rw [hc, ebind_error] at h0; cases h0
    | ok l =>
      rw [hc, ebind_ok, epure_ok] at h0
      injection h0 with h0
      rw [image_fold_enum l 0 r] at h0
      exact ⟨_, h0.symm⟩

theorem setMfg_extends (doc : Json) (r r' : Row)
    (h : setMfg doc r = Except.ok r') : ∃ t, r' = r ++ t := by
  have h0 : (doc.getM "mfgDetails" >>= fun o =>
      if ((o.getD Json.null).truthy) = true then
        (doc.item "mfgDetails" >>= fun m =>
          match m with
          | .obj ms => List.foldlM mfgStep r ms
          | _ => Except.error "AttributeError: items")
      else pure r) = Except.ok r' := h
  cases hg : doc.getM "mfgDetails" with
  | error e => rw [hg, ebind_error] at h0; cases h0
  | ok o =>
    rw [hg, ebind_ok] at h0
    cases hT : (o.getD Json.null).truthy with
    | false =>
      simp only [hT, Bool.false_eq_true, if_false] at h0
      rw [epure_ok] at h0
      injection h0 with h0
      exact ⟨[], by simp [← h0]⟩
    | true =>
      simp only [hT, if_true] at h0
      cases hi : doc.item "mfgDetails" with
      | error e => rw [hi, ebind_error] at h0; cases h0
      | ok m =>
        rw [hi, ebind_ok] at h0
        cases m with
        | obj ms => exact foldlM_extends mfgStep mfgStep_extends _ _ _ h0
        | null => cases h0
        | bool b => cases h0
        | num n => cases h0
        | str s => cases h0
        | arr xs => cases h0

theorem flatten_extends (doc : Json) (r r' : Row)
    (h : flattenFields doc r = Except.ok r') : ∃ t, r' = r ++ t := by
  have h0 : (setScalars doc r >>= fun r => setPricing doc r >>= fun r =>
      setBreadcrumbs doc r >>= fun r => setDetails doc r >>= fun r =>
        setImages doc r >>= fun r => setMfg doc r) = Except.ok r' := h
  cases s1 : setScalars doc r with
  | error e => rw [s1, ebind_error] at h0; cases h0
  | ok r1 =>
    rw [s1, ebind_ok] at h0
    cases s2 : setPricing doc r1 with
    | error e => rw [s2, ebind_error] at h0; cases h0
    | ok r2 =>
      rw [s2, ebind_ok] at h0
      cases s3 : setBreadcrumbs doc r2 with
      | error e => rw [s3, ebind_error] at h0; cases h0
      | ok r3 =>
        rw [s3, ebind_ok] at h0
        cases s4 : setDetails doc r3 with
        | error e => rw [s4, ebind_error] at h0; cases h0
        | ok r4 =>
          rw [s4, ebind_ok] at h0
          cases s5 : setImages doc r4 with
          | error e => rw [s5, ebind_error] at h0; cases h0
          | ok r5 =>
            rw [s5, ebind_ok] at h0
            exact extTrans (setScalars_extends _ _ _ s1)
              (extTrans (setPricing_extends _ _ _ s2)
                (extTrans (setBreadcrumbs_extends _ _ _ s3)
                  (extTrans (setDetails_extends _ _ _ s4)
                    (extTrans (setImages_extends _ _ _ s5)
                      (setMfg_extends _ _ _ h0)))))

theorem extract_nosg (inp b : String) (st : Int) (jparse : String → Option Json)
    (sg : String → Json → Except String Row) (fs : List (String × Json)) (r : Row)
    (h0 : (pyStrip inp == "") = false)
    (h1 : (pyStartsWith (pyStrip b) "\x7b" && pyEndsWith (pyStrip b) "\x7d") = true)
    (h2 : jparse (pyStrip b) = some (.obj fs))
    (h3 : flattenFields (.obj fs) (readyRow inp st) = Except.ok r)
    (h4 : ((lookupF fs "sizeGuideId").getD Json.null).truthy = false) :
    extract_product inp (.resp st b) jparse sg = Except.ok r := by
  rw [extract_parsed inp b st jparse sg (.obj fs) h0 h1 h2, h3, ebind_ok]
  rw [show Json.getM (.obj fs) "sizeGuideId" = Except.ok (lookupF fs "sizeGuideId") from rfl,
    ebind_ok]
  simp [h4, epure_ok]

theorem extract_sgres (inp b : String) (st : Int) (jparse : String → Option Json)
    (sg : String → Json → Except String Row) (fs : List (String × Json)) (r : Row) (sgid : Json)
    (h0 : (pyStrip inp == "") = false)
    (h1 : (pyStartsWith (pyStrip b) "\x7b" && pyEndsWith (pyStrip b) "\x7d") = true)
    (h2 : jparse (pyStrip b) = some (.obj fs))
    (h3 : flattenFields (.obj fs) (readyRow inp st) = Except.ok r)
    (h4 : lookupF fs "sizeGuideId" = some sgid)
    (h5 : sgid.truthy = true) :
    extract_product inp (.resp st b) jparse sg
      = match sg (derive_pid (pyStrip inp)) sgid with
        | Except.ok s => Except.ok (Row.update r s)
        | Except.error e => Except.ok (Row.set r (.str "SizeGuide_Error") (.str e)) := by
  rw [extract_parsed inp b st jparse sg (.obj fs) h0 h1 h2, h3, ebind_ok]
  rw [show Json.getM (.obj fs) "sizeGuideId" = Except.ok (lookupF fs "sizeGuideId") from rfl,
    ebind_ok, h4]
  have hitem : Json.item (.obj fs) "sizeGuideId" = Except.ok sgid := by
    simp [Json.item, h4]
  simp only [Option.getD_some, h5, if_true, hitem, ebind_ok]
  cases sg (derive_pid (pyStrip inp)) sgid <;> rfl

theorem row_get_append_isSome (r t : Row) (k : Json)
    (h : (Row.get? r k).isSome = true) : (Row.get? (r ++ t) k).isSome = true := by
  cases hgt : Row.get? t k with
  | some v => rw [row_get_append_some r hgt]; rfl
  | none => rw [row_get_append_none r hgt]; exact h

theorem readyRow_input (inp : String) (st : Int) :
    Row.get? (readyRow inp st) (.str "Input") = some (.str inp) := rfl

theorem extract_rawfail (inp b : String) (st : Int) (jparse : String → Option Json)
    (sg : String → Json → Except String Row)
    (h0 : (pyStrip inp == "") = false)
    (h1 : (pyStartsWith (pyStrip b) "\x7b" && pyEndsWith (pyStrip b) "\x7d") = true)
    (h2 : jparse (pyStrip b) = none) :
    extract_product inp (.resp st b) jparse sg
      = Except.ok (Row.set (Row.set (Row.set (Row.set (idRow inp)
          (.str "http_status") (.num st)) (.str "blocked") (.bool true))
          (.str "Error") (.str "Raw JSON parse failed"))
          (.str "Raw_Response_Preview") (.str (pyTake (pyStrip b) 500))) := by
  simp [extract_product, h0, h1, h2, epure_ok]
  all_goals rfl

theorem extract_html_parsed (inp b : String) (st : Int) (jparse : String → Option Json)
    (sg : String → Json → Except String Row) (doc : Json)
    (h0 : (pyStrip inp == "") = false)
    (h1 : (pyStartsWith (pyStrip b) "\x7b" && pyEndsWith (pyStrip b) "\x7d") = false)
    (hp : pyContainsStr b "<p>" = true)
    (h2 : jparse (pyStrip ((pySplit ((pySplit b "<p>").getLastD "") "</p>").headD ""))
      = some doc) :
    extract_product inp (.resp st b) jparse sg
      = (flattenFields doc (readyRow inp st) >>= fun r =>
          (doc.getM "sizeGuideId" >>= fun o =>
            if (o.getD Json.null).truthy = true then
              (doc.item "sizeGuideId" >>= fun sgid =>
                match sg (derive_pid (pyStrip inp)) sgid with
                | Except.ok size_data => pure (Row.update r size_data)
                | Except.error e => pure (Row.set r (.str "SizeGuide_Error") (.str e)))
            else pure r)) := by
  have h2n : jparse (pyStrip ((pySplit ((pySplit b "<p>").getLast?.getD "")
      "</p>").head?.getD "")) = some doc := by simpa using h2
  simp [extract_product, h0, h1, hp, h2n, readyRow]

theorem extract_htmlfail (inp b : String) (st : Int) (jparse : String → Option Json)
    (sg : String → Json → Except String Row)
    (h0 : (pyStrip inp == "") = false)
    (h1 : (pyStartsWith (pyStrip b) "\x7b" && pyEndsWith (pyStrip b) "\x7d") = false)
    (hp : pyContainsStr b "<p>" = true)
    (h2 : jparse (pyStrip ((pySplit ((pySplit b "<p>").getLastD "") "</p>").headD "")) = none) :
    extract_product inp (.resp st b) jparse sg
      = Except.ok (Row.set (Row.set (Row.set (Row.set (idRow inp)
          (.str "http_status") (.num st)) (.str "blocked") (.bool true))
          (.str "Error") (.str "<p> JSON parse failed"))
          (.str "Raw_Response_Preview")
          (.str (pyTake (pyStrip ((pySplit ((pySplit b "<p>").getLastD "") "</p>").headD "")) 500))) := by
  have h2n : jparse (pyStrip ((pySplit ((pySplit b "<p>").getLast?.getD "")
      "</p>").head?.getD "")) = none := by simpa using h2
  simp [extract_product, h0, h1, hp, h2n, epure_ok]
  all_goals rfl

theorem extract_unknown (inp b : String) (st : Int) (jparse : String → Option Json)
    (sg : String → Json → Except String Row)
    (h0 : (pyStrip inp == "") = false)
    (h1 : (pyStartsWith (pyStrip b) "\x7b" && pyEndsWith (pyStrip b) "\x7d") = false)
    (hp : pyContainsStr b "<p>" = false) :
    extract_product inp (.resp st b) jparse sg
      = Except.ok (Row.set (Row.set (Row.set (Row.set (idRow inp)
          (.str "http_status") (.num st)) (.str "blocked") (.bool true))
          (.str "Error") (.str "Unexpected response format (not raw JSON, not <p> JSON)"))
          (.str "Raw_Response_Preview") (.str (pyTake (pyStrip b) 500))) := by
  simp [extract_product, h0, h1, hp, epure_ok]
  all_goals rfl

theorem tail_presence (doc : Json) (inp : String) (st : Int)
    (sg : String → Json → Except String Row) (row : Row)
    (h : (flattenFields doc (readyRow inp st) >>= fun r =>
        (doc.getM "sizeGuideId" >>= fun o =>
          if (o.getD Json.null).truthy = true then
            (doc.item "sizeGuideId" >>= fun sgid =>
              match sg (derive_pid (pyStrip inp)) sgid with
              | Except.ok size_data => pure (Row.update r size_data)
              | Except.error e => pure (Row.set r (.str "SizeGuide_Error") (.str e)))
          else pure r)) = Except.ok row) :
    (Row.get? row (.str "Input")).isSome = true := by
  cases hfl : flattenFields doc (readyRow inp st) with
  | error e => rw [hfl, ebind_error] at h; cases h
  | ok r =>
    rw [hfl, ebind_ok] at h
    have hr : (Row.get? r (.str "Input")).isSome = true := by
      obtain ⟨t, ht⟩ := flatten_extends doc (readyRow inp st) r hfl
      rw [ht]
      apply row_get_append_isSome
      rw [readyRow_input]
      rfl
    cases hg : doc.getM "sizeGuideId" with
    | error e => rw [hg, ebind_error] at h; cases h
    | ok o =>
      rw [hg, ebind_ok] at h
      cases hT : (o.getD Json.null).truthy with
      | false =>
        simp only [hT, Bool.false_eq_true, if_false, epure_ok] at h
        injection h with h
        rw [← h]
        exact hr
      | true =>
        simp only [hT, if_true] at h
        cases hi : doc.item "sizeGuideId" with
        | error e => rw [hi, ebind_error] at h; cases h
        | ok sgid =>
          rw [hi, ebind_ok] at h
          cases hres : sg (derive_pid (pyStrip inp)) sgid with
          | ok s =>
            simp only [hres, epure_ok] at h
            injection h with h
            rw [← h, row_update_eq_append]
            exact row_get_append_isSome r s _ hr
          | error e =>
            simp only [hres, epure_ok] at h
            injection h with h
            rw [← h, Row.set]
            exact row_get_append_isSome r _ _ hr

theorem mem_pyEnumerate {α : Type} (l : List α) :
    ∀ (n : Nat) (p : Nat × α), p ∈ pyEnumerate n l → p.2 ∈ l := by
  induction l with
  | nil => intro n p h; cases h
  | cons x xs ih =>
    intro n p h
    cases h with
    | head => exact List.mem_cons_self x xs
    | tail _ hmem => exact List.mem_cons_of_mem x (ih (n + 1) p hmem)

theorem priceField_ok (fs : List (String × Json)) (sk dk : String) (r : Row)
    (h : priceShapeOk fs sk = true) :
    ∃ r', priceField (.obj fs) sk dk r = Except.ok r' := by
  have h0 : priceField (.obj fs) sk dk r
      = (if (((lookupF fs sk).getD Json.null).truthy) = true then
          (Json.item (.obj fs) sk >>= fun m => (m.getM "value" >>= fun x =>
            pure (Row.set r (.str dk) (x.getD .null))))
        else pure r) := rfl
  cases hl : lookupF fs sk with
  | none => exact ⟨r, by rw [h0, hl]; simp [Json.truthy]; rfl⟩
  | some v =>
    cases hT : v.truthy with
    | false => exact ⟨r, by rw [h0, hl]; simp [hT]; rfl⟩
    | true =>
      have hobj : v.isObj = true := by
        have hh : (!v.truthy || v.isObj) = true := by
          have hx := h
          unfold priceShapeOk at hx
          rw [hl] at hx
          exact hx
        rw [hT] at hh
        simpa using hh
      cases v with
      | obj fs2 =>
        have hitem : Json.item (.obj fs) sk = Except.ok (.obj fs2) := by
          simp [Json.item, hl]
        refine ⟨Row.set r (.str dk) ((lookupF fs2 "value").getD .null), ?_⟩
        rw [h0, hl]
        simp only [Option.getD_some, hT, if_true, hitem, ebind_ok]
        rfl
      | null => simp [Json.isObj] at hobj
      | bool b => simp [Json.isObj] at hobj
      | num n => simp [Json.isObj] at hobj
      | str s => simp [Json.isObj] at hobj
      | arr xs => simp [Json.isObj] at hobj

theorem discountField_ok (fs : List (String × Json)) (r : Row) :
    ∃ r', discountField (.obj fs) r = Except.ok r' := by
  have h0 : discountField (.obj fs) r
      = (match (lookupF fs "discount").getD Json.null with
         | .null => pure r
         | v => pure (Row.set r (.str "Discount") v)) := rfl
  cases hD : (lookupF fs "discount").getD Json.null with
  | null => exact ⟨r, by rw [h0, hD]; rfl⟩
  | bool b => exact ⟨_, by rw [h0, hD]; rfl⟩
  | num n => exact ⟨_, by rw [h0, hD]; rfl⟩
  | str s => exact ⟨_, by rw [h0, hD]; rfl⟩
  | arr xs => exact ⟨_, by rw [h0, hD]; rfl⟩
  | obj fs2 => exact ⟨_, by rw [h0, hD]; rfl⟩

theorem setPricing_ok (fs : List (String × Json)) (r : Row)
    (h1 : priceShapeOk fs "mrpPrice" = true)
    (h2 : priceShapeOk fs "winningSellerPrice" = true) :
    ∃ r', setPricing (.obj fs) r = Except.ok r' := by
  obtain ⟨r1, hr1⟩ := priceField_ok fs "mrpPrice" "MRP" r h1
  obtain ⟨r2, hr2⟩ := priceField_ok fs "winningSellerPrice" "Price" r1 h2
  obtain ⟨r3, hr3⟩ := discountField_ok fs r2
  refine ⟨r3, ?_⟩
  show (priceField (.obj fs) "mrpPrice" "MRP" r >>= fun r =>
      priceField (.obj fs) "winningSellerPrice" "Price" r >>= fun r =>
        discountField (.obj fs) r) = Except.ok r3
  rw [hr1, ebind_ok, hr2, ebind_ok, hr3]

theorem crumbStep_ok (acc : Row) (p : Nat × Json)
    (h : p.2.isObj = true) :
    ∃ b, crumbStep acc p = Except.ok b := by
  cases hv : p.2 with
  | obj cfs =>
    refine ⟨Row.set acc (.str ("Breadcrum_" ++ toString (p.1 + 1)))
      ((lookupF cfs "category_name").getD .null), ?_⟩
    have h0 : crumbStep acc p = (p.2.getM "category_name" >>= fun x =>
        pure (Row.set acc (.str ("Breadcrum_" ++ toString (p.1 + 1))) (x.getD .null))) := rfl
    rw [h0, hv]
    rfl
  | null => rw [hv] at h; simp [Json.isObj] at h
  | bool b => rw [hv] at h; simp [Json.isObj] at h
  | num n => rw [hv] at h; simp [Json.isObj] at h
  | str s => rw [hv] at h; simp [Json.isObj] at h
  | arr xs => rw [hv] at h; simp [Json.isObj] at h

theorem setBreadcrumbs_ok (fs : List (String × Json)) (r : Row)
    (h : chShapeOk fs = true) :
    ∃ r', setBreadcrumbs (.obj fs) r = Except.ok r' := by
  cases hl : lookupF fs "categoryHierarchy" with
  | none => exact ⟨r, setBreadcrumbs_noop fs r hl⟩
  | some v =>
    have hsh := h
    simp only [chShapeOk, hl] at hsh
    cases v with
    | arr cs =>
      have hall : ∀ c ∈ cs, c.isObj = true := by
        intro c hc
        have := List.all_eq_true.mp hsh c hc
        simpa using this
      have h0 : setBreadcrumbs (.obj fs) r
          = (Except.ok (lookupF fs "categoryHierarchy") >>= fun o =>
              (o.getD (.arr [])).pyIter >>= fun cs =>
                List.foldlM crumbStep r (pyEnumerate 0 cs)) := rfl
      obtain ⟨r', hr'⟩ := foldlM_ok_all crumbStep (pyEnumerate 0 cs)
        (fun p hp acc => crumbStep_ok acc p (hall p.2 (mem_pyEnumerate cs 0 p hp))) r
      refine ⟨r', ?_⟩
      rw [h0, hl]
      simp only [ebind_ok, Option.getD_some]
      rw [show (Json.arr cs).pyIter = Except.ok cs from rfl, ebind_ok]
      exact hr'
    | null => cases hsh
    | bool b => cases hsh
    | num n => cases hsh
    | str s => cases hsh
    | obj fs2 => cases hsh

theorem detailStep_ok (acc : Row) (d : Json) (h : detailEntryOk d = true) :
    ∃ b, detailStep acc d = Except.ok b := by
  cases d with
  | obj dfs =>
    have hH : ((lookupF dfs "key").getD .null).hashable = true := by
      simpa [detailEntryOk] using h
    have h0 : detailStep acc (.obj dfs)
        = (if (((lookupF dfs "key").getD Json.null).truthy) = true then
            (if (((lookupF dfs "key").getD Json.null).hashable) = true then
              pure (Row.set acc ((lookupF dfs "key").getD Json.null)
                ((lookupF dfs "value").getD Json.null))
            else Except.error "TypeError: unhashable type")
          else pure acc) := rfl
    cases hT : ((lookupF dfs "key").getD Json.null).truthy with
    | false => exact ⟨acc, by rw [h0]; simp [hT]; rfl⟩
    | true =>
      exact ⟨Row.set acc ((lookupF dfs "key").getD Json.null)
        ((lookupF dfs "value").getD Json.null), by rw [h0]; simp [hT, hH]; rfl⟩
  | null => simp [detailEntryOk] at h
  | bool b => simp [detailEntryOk] at h
  | num n => simp [detailEntryOk] at h
  | str s => simp [detailEntryOk] at h
  | arr xs => simp [detailEntryOk] at h

theorem setDetails_ok (fs : List (String × Json)) (r : Row)
    (h : detailsShapeOk fs = true) :
    ∃ r', setDetails (.obj fs) r = Except.ok r' := by
  cases hl : lookupF fs "details" with
  | none => exact ⟨r, setDetails_noop fs r hl⟩
  | some v =>
    have hsh : (match some v with
        | none => true
        | some (Json.arr ds) => ds.all detailEntryOk
        | some _ => false) = true := by
      rw [← hl]
      have hx := h
      unfold detailsShapeOk at hx
      exact hx
    cases v with
    | arr ds =>
      have hall : ∀ d ∈ ds, detailEntryOk d = true := List.all_eq_true.mp (by simpa using hsh)
      have h0 : setDetails (.obj fs) r
          = (Except.ok (lookupF fs "details") >>= fun o =>
              (o.getD (.arr [])).pyIter >>= fun ds => List.foldlM detailStep r ds) := rfl
      obtain ⟨r', hr'⟩ := foldlM_ok_all detailStep ds
        (fun d hd acc => detailStep_ok acc d (hall d hd)) r
      refine ⟨r', ?_⟩
      rw [h0, hl]
      simp only [ebind_ok, Option.getD_some]
      rw [show (Json.arr ds).pyIter = Except.ok ds from rfl, ebind_ok]
      exact hr'
    | null => simp at hsh
    | bool b => simp at hsh
    | num n => simp at hsh
    | str s => simp at hsh
    | obj fs2 => simp at hsh

theorem imgEntryStep_ok (acc : List String) (e : Json) (h : imgEntryOk e = true) :
    ∃ b, imgEntryStep acc e = Except.ok b := by
  cases e with
  | obj efs =>
    have h0 : imgEntryStep acc (.obj efs)
        = (if (((lookupF efs "key").getD Json.null) == Json.str "superZoom") = true then
            (if (((lookupF efs "value").getD (Json.str "")).truthy) = true then
              (match (lookupF efs "value").getD (Json.str "") with
               | .str s => pure (acc ++ ["https:" ++ s])
               | _ => Except.error "TypeError: can only concatenate str")
            else pure acc)
          else pure acc) := rfl
    cases hk : (((lookupF efs "key").getD Json.null) == Json.str "superZoom") with
    | false => exact ⟨acc, by rw [h0]; simp [hk]; rfl⟩
    | true =>
      have hval : imgValOk ((lookupF efs "value").getD (Json.str "")) = true := by
        have hx : (if (((lookupF efs "key").getD Json.null) == Json.str "superZoom") = true
            then imgValOk ((lookupF efs "value").getD (Json.str "")) else true) = true := h
        rw [hk] at hx
        simpa using hx
      cases hv : (lookupF efs "value").getD (Json.str "") with
      | str s =>
        cases hs : (s == "") with
        | true =>
          refine ⟨acc, ?_⟩
          rw [h0, hv]
          have hT : (Json.str s).truthy = false := by
            rw [show (Json.str s).truthy = !(s == "") from rfl, hs]
            rfl
          simp [hk, hT]
          rfl
        | false =>
          refine ⟨acc ++ ["https:" ++ s], ?_⟩
          rw [h0, hv]
          have hT : (Json.str s).truthy = true := by
            rw [show (Json.str s).truthy = !(s == "") from rfl, hs]
            rfl
          simp [hk, hT]
          rfl
      | null =>
        refine ⟨acc, ?_⟩
        rw [h0, hv]
        simp [hk, Json.truthy]
        rfl
      | bool b =>
        rw [hv] at hval
        have hb : b = false := by simpa [imgValOk, Json.truthy] using hval
        refine ⟨acc, ?_⟩
        rw [h0, hv, hb]
        simp [hk, Json.truthy]
        rfl
      | num n =>
        rw [hv] at hval
        have hn : (n != 0) = false := by simpa [imgValOk, Json.truthy] using hval
        refine ⟨acc, ?_⟩
        rw [h0, hv]
        simp [hk, Json.truthy, hn]
        rfl
      | arr xs =>
        rw [hv] at hval
        have hx : xs.isEmpty = true := by simpa [imgValOk, Json.truthy] using hval
        refine ⟨acc, ?_⟩
        rw [h0, hv]
        simp [hk, Json.truthy, hx]
        rfl
      | obj gfs =>
        rw [hv] at hval
        have hx : gfs.isEmpty = true := by simpa [imgValOk, Json.truthy] using hval
        refine ⟨acc, ?_⟩
        rw [h0, hv]
        simp [hk, Json.truthy, hx]
        rfl
  | null => simp [imgEntryOk] at h
  | bool b => simp [imgEntryOk] at h
  | num n => simp [imgEntryOk] at h
  | str s => simp [imgEntryOk] at h
  | arr xs => simp [imgEntryOk] at h

theorem imgGroupStep_ok (acc : List String) (g : Json) (h : imgGroupOk g = true) :
    ∃ b, imgGroupStep acc g = Except.ok b := by
  cases g with
  | obj gfs =>
    have h0 : imgGroupStep acc (.obj gfs)
        = (((lookupF gfs "galleryImages").getD (.arr [])).pyIter >>= fun inner =>
            List.foldlM imgEntryStep acc inner) := rfl
    cases hl : lookupF gfs "galleryImages" with
    | none => exact ⟨acc, by rw [h0, hl]; rfl⟩
    | some v =>
      have hsh : (match some v with
          | none => true
          | some (Json.arr ks) => ks.all imgEntryOk
          | some _ => false) = true := by
        rw [← hl]
        have hx := h
        unfold imgGroupOk at hx
        exact hx
      cases v with
      | arr ks =>
        have hall : ∀ e ∈ ks, imgEntryOk e = true := List.all_eq_true.mp (by simpa using hsh)
        obtain ⟨b, hb⟩ := foldlM_ok_all imgEntryStep ks
          (fun e he a => imgEntryStep_ok a e (hall e he)) acc
        refine ⟨b, ?_⟩
        rw [h0, hl]
        simp only [Option.getD_some]
        rw [show (Json.arr ks).pyIter = Except.ok ks from rfl, ebind_ok]
        exact hb
      | null => simp at hsh
      | bool b => simp at hsh
      | num n => simp at hsh
      | str s => simp at hsh
      | obj fs2 => simp at hsh
  | null => simp [imgGroupOk] at h
  | bool b => simp [imgGroupOk] at h
  | num n => simp [imgGroupOk] at h
  | str s => simp [imgGroupOk] at h
  | arr xs => simp [imgGroupOk] at h

theorem setImages_ok (fs : List (String × Json)) (r : Row)
    (h : galleryShapeOk fs = true) :
    ∃ r', setImages (.obj fs) r = Except.ok r' := by
  cases hl : lookupF fs "galleryImagesList" with
  | none => exact ⟨r, setImages_noop fs r hl⟩
  | some v =>
    have hsh : (match some v with
        | none => true
        | some (Json.arr gs) => gs.all imgGroupOk
        | some _ => false) = true := by
      rw [← hl]
      have hx := h
      unfold galleryShapeOk at hx
      exact hx
    cases v with
    | arr gs =>
      have hall : ∀ g ∈ gs, imgGroupOk g = true := List.all_eq_true.mp (by simpa using hsh)
      obtain ⟨l, hlok⟩ := foldlM_ok_all imgGroupStep gs
        (fun g hg a => imgGroupStep_ok a g (hall g hg)) []
      have hc : collectImgs (.arr gs) = Except.ok l := by
        show ((Json.arr gs).pyIter >>= fun xs => List.foldlM imgGroupStep [] xs)
          = Except.ok l
        rw [show (Json.arr gs).pyIter = Except.ok gs from rfl, ebind_ok]
        exact hlok
      exact ⟨r ++ imageBlock l, setImages_eval fs r (.arr gs) l hl hc⟩
    | null => simp at hsh
    | bool b => simp at hsh
    | num n => simp at hsh
    | str s => simp at hsh
    | obj fs2 => simp at hsh

theorem mfgStep_ok (acc : Row) (p : String × Json) (h : mfgValOk p.2 = true) :
    ∃ b, mfgStep acc p = Except.ok b := by
  cases hv : p.2 with
  | arr xs =>
    cases xs with
    | nil => rw [hv] at h; simp [mfgValOk] at h
    | cons x rest =>
      rw [hv] at h
      have hhead : mfgHeadOk x = true := by simpa [mfgValOk] using h
      cases x with
      | obj xfs =>
        have hsome : (lookupF xfs "value").isSome = true := by
          simpa [mfgHeadOk] using hhead
        obtain ⟨w, hw⟩ := Option.isSome_iff_exists.mp hsome
        have hitem : Json.item (.obj xfs) "value" = Except.ok w := by
          simp [Json.item, hw]
        refine ⟨Row.set acc (.str p.1) w, ?_⟩
        have h0 : mfgStep acc p = ((Json.obj xfs).item "value" >>= fun y =>
            pure (Row.set acc (.str p.1) y)) := by
          show mfgStep acc p = _
          simp [mfgStep, hv]
        rw [h0, hitem, ebind_ok, epure_ok]
      | null => simp [mfgHeadOk] at hhead
      | bool b => simp [mfgHeadOk] at hhead
      | num n => simp [mfgHeadOk] at hhead
      | str s => simp [mfgHeadOk] at hhead
      | arr ys => simp [mfgHeadOk] at hhead
  | null => exact ⟨_, by simp [mfgStep, hv]; rfl⟩
  | bool b => exact ⟨_, by simp [mfgStep, hv]; rfl⟩
  | num n => exact ⟨_, by simp [mfgStep, hv]; rfl⟩
  | str s => exact ⟨_, by simp [mfgStep, hv]; rfl⟩
  | obj fs2 => exact ⟨_, by simp [mfgStep, hv]; rfl⟩

theorem setMfg_ok (fs : List (String × Json)) (r : Row) (h : mfgShapeOk fs = true) :
    ∃ r', setMfg (.obj fs) r = Except.ok r' := by
  have h0 : setMfg (.obj fs) r
      = (if (((lookupF fs "mfgDetails").getD Json.null).truthy) = true then
          (Json.item (.obj fs) "mfgDetails" >>= fun m =>
            match m with
            | .obj ms => List.foldlM mfgStep r ms
            | _ => Except.error "AttributeError: items")
        else pure r) := rfl
  cases hl : lookupF fs "mfgDetails" with
  | none => exact ⟨r, by rw [h0, hl]; simp [Json.truthy]; rfl⟩
  | some v =>
    cases hT : v.truthy with
    | false => exact ⟨r, by rw [h0, hl]; simp [hT]; rfl⟩
    | true =>
      have hsh : mfgTableOk v = true := by
        have hx := h
        unfold mfgShapeOk at hx
        rw [hl] at hx
        have hx2 : (!v.truthy || mfgTableOk v) = true := hx
        rw [hT] at hx2
        simpa using hx2
      cases v with
      | obj ms =>
        have hall : ∀ p ∈ ms, mfgValOk p.2 = true := by
          have hh : (ms.all fun p => mfgValOk p.2) = true := by
            have : mfgTableOk (.obj ms) = (ms.all fun p => mfgValOk p.2) := rfl
            rw [← this]
            exact hsh
          intro p hp
          exact List.all_eq_true.mp hh p hp
        obtain ⟨r', hr'⟩ := foldlM_ok_all mfgStep ms
          (fun p hp acc => mfgStep_ok acc p (hall p hp)) r
        refine ⟨r', ?_⟩
        rw [h0, hl]
        have hitem : Json.item (.obj fs) "mfgDetails" = Except.ok (.obj ms) := by
          simp [Json.item, hl]
        simp only [Option.getD_some, hT, if_true, hitem, ebind_ok]
        exact hr'
      | null => simp [mfgTableOk] at hsh
      | bool b => simp [mfgTableOk] at hsh
      | num n => simp [mfgTableOk] at hsh
      | str s => simp [mfgTableOk] at hsh
      | arr xs => simp [mfgTableOk] at hsh

theorem flattenFields_ok (doc : Json) (r : Row) (h : wellShaped doc = true) :
    ∃ row, flattenFields doc r = Except.ok row := by
  cases doc with
  | obj fs =>
    have hx := h
    unfold wellShaped at hx
    rw [Bool.and_eq_true, Bool.and_eq_true, Bool.and_eq_true, Bool.and_eq_true,
      Bool.and_eq_true] at hx
    obtain ⟨⟨⟨⟨⟨hp1, hp2⟩, hch⟩, hdet⟩, hgal⟩, hmfg⟩ := hx
    obtain ⟨r2, h2⟩ := setPricing_ok fs _ hp1 hp2
    obtain ⟨r3, h3⟩ := setBreadcrumbs_ok fs r2 hch
    obtain ⟨r4, h4⟩ := setDetails_ok fs r3 hdet
    obtain ⟨r5, h5⟩ := setImages_ok fs r4 hgal
    obtain ⟨r6, h6⟩ := setMfg_ok fs r5 hmfg
    exact ⟨r6, flatten_chain (.obj fs) r _ r2 r3 r4 r5 r6
      (setScalars_eval fs r) h2 h3 h4 h5 h6⟩
  | null => simp [wellShaped] at h
  | bool b => simp [wellShaped] at h
  | num n => simp [wellShaped] at h
  | str s => simp [wellShaped] at h
  | arr xs => simp [wellShaped] at h

theorem lastAssoc_cons (p : String × Json) (es : List (String × Json)) (k : String) :
    lastAssoc (p :: es) k
      = (match lastAssoc es k with
         | some v => some v
         | none => if p.1 == k then some p.2 else none) := rfl

theorem detailsBlock_get_none (es : List (String × Json)) (k : String) :
    lastAssoc es k = none → Row.get? (detailsBlock es) (.str k) = none := by
  induction es with
  | nil => intro _; rfl
  | cons p es ih =>
    intro h
    rw [lastAssoc_cons] at h
    cases hrec : lastAssoc es k with
    | some w => rw [hrec] at h; cases h
    | none =>
      rw [hrec] at h
      cases hpk : (p.1 == k) with
      | true => rw [hpk] at h; simp at h
      | false =>
        cases hpe : (p.1 == "") with
        | true =>
          have hb : detailsBlock (p :: es) = detailsBlock es := by
            simp [detailsBlock, List.filter_cons, hpe]
          rw [hb]
          exact ih hrec
        | false =>
          have hb : detailsBlock (p :: es) = (.str p.1, p.2) :: detailsBlock es := by
            simp [detailsBlock, List.filter_cons, hpe]
          rw [hb]
          show (match Row.get? (detailsBlock es) (.str k) with
            | some v => some v
            | none => if (Json.str p.1 == Json.str k) then some p.2 else none) = none
          rw [ih hrec, json_beq_str, hpk]
          rfl

theorem detailsBlock_get_some (es : List (String × Json)) (k : String) (v : Json)
    (hk : k ≠ "") :
    lastAssoc es k = some v → Row.get? (detailsBlock es) (.str k) = some v := by
  induction es with
  | nil => intro h; cases h
  | cons p es ih =>
    intro h
    rw [lastAssoc_cons] at h
    cases hrec : lastAssoc es k with
    | some w =>
      rw [hrec] at h
      have hw : w = v := by injection h
      cases hpe : (p.1 == "") with
      | true =>
        have hb : detailsBlock (p :: es) = detailsBlock es := by
          simp [detailsBlock, List.filter_cons, hpe]
        rw [hb]
        exact ih (hw ▸ hrec)
      | false =>
        have hb : detailsBlock (p :: es) = (.str p.1, p.2) :: detailsBlock es := by
          simp [detailsBlock, List.filter_cons, hpe]
        rw [hb]
        show (match Row.get? (detailsBlock es) (.str k) with
          | some u => some u
          | none => if (Json.str p.1 == Json.str k) then some p.2 else none) = some v
        rw [ih (hw ▸ hrec)]
    | none =>
      rw [hrec] at h
      cases hpk : (p.1 == k) with
      | false => rw [hpk] at h; simp at h
      | true =>
        rw [hpk] at h
        have hv : p.2 = v := by simpa using h
        have hp1 : p.1 = k := eq_of_beq hpk
        have hpe : (p.1 == "") = false := by
          rw [hp1]
          exact beq_eq_false_iff_ne.mpr hk
        have hb : detailsBlock (p :: es) = (.str p.1, p.2) :: detailsBlock es := by
          simp [detailsBlock, List.filter_cons, hpe]
        rw [hb]
        show (match Row.get? (detailsBlock es) (.str k) with
          | some u => some u
          | none => if (Json.str p.1 == Json.str k) then some p.2 else none) = some v
        rw [detailsBlock_get_none es k hrec, json_beq_str, hpk, hv]
        rfl

theorem gallery_row_gets (inp b : String) (st : Int) (jparse : String → Option Json)
    (sg : String → Json → Except String Row) (g : Json) (u1 u2 u3 : String)
    (hI : (pyStrip inp == "") = false)
    (hF : (pyStartsWith (pyStrip b) "\x7b" && pyEndsWith (pyStrip b) "\x7d") = true)
    (hJ : jparse (pyStrip b) = some (.obj [("galleryImagesList", g)]))
    (hC : collectImgs g = Except.ok [u1, u2, u3]) :
    extract_product inp (.resp st b) jparse sg
      = Except.ok ((readyRow inp st ++ scalarNulls) ++ imageBlock [u1, u2, u3])
    ∧ Row.get? (rowOf (extract_product inp (.resp st b) jparse sg)) (.str "image_1")
        = some (.str u1)
    ∧ Row.get? (rowOf (extract_product inp (.resp st b) jparse sg)) (.str "image_2")
        = some (.str u2)
    ∧ Row.get? (rowOf (extract_product inp (.resp st b) jparse sg)) (.str "image_3")
        = some (.str u3)
    ∧ Row.get? (rowOf (extract_product inp (.resp st b) jparse sg)) (.str "image_4") = none
    ∧ Row.get? (rowOf (extract_product inp (.resp st b) jparse sg)) (.str "image_5") = none
    ∧ Row.get? (rowOf (extract_product inp (.resp st b) jparse sg)) (.str "image_6") = none := by
  have hex : extract_product inp (.resp st b) jparse sg
      = Except.ok ((readyRow inp st ++ scalarNulls) ++ imageBlock [u1, u2, u3]) :=
    extract_nosg inp b st jparse sg [("galleryImagesList", g)] _ hI hF hJ
      (flatten_gallery_any g [u1, u2, u3] (readyRow inp st) hC) rfl
  refine ⟨hex, ?_, ?_, ?_, ?_, ?_, ?_⟩ <;> rw [hex]
  · exact row_get_append_some _ (show Row.get? (imageBlock [u1, u2, u3]) (.str "image_1")
      = some (.str u1) by with_unfolding_all rfl)
  · exact row_get_append_some _ (show Row.get? (imageBlock [u1, u2, u3]) (.str "image_2")
      = some (.str u2) by with_unfolding_all rfl)
  · exact row_get_append_some _ (show Row.get? (imageBlock [u1, u2, u3]) (.str "image_3")
      = some (.str u3) by with_unfolding_all rfl)
  · show Row.get? ((readyRow inp st ++ scalarNulls) ++ imageBlock [u1, u2, u3])
      (.str "image_4") = none
    rw [row_get_append_none _ (show Row.get? (imageBlock [u1, u2, u3]) (.str "image_4")
      = none by with_unfolding_all rfl)]
    with_unfolding_all rfl
  · show Row.get? ((readyRow inp st ++ scalarNulls) ++ imageBlock [u1, u2, u3])
      (.str "image_5") = none
    rw [row_get_append_none _ (show Row.get? (imageBlock [u1, u2, u3]) (.str "image_5")
      = none by with_unfolding_all rfl)]
    with_unfolding_all rfl
  · show Row.get? ((readyRow inp st ++ scalarNulls) ++ imageBlock [u1, u2, u3])
      (.str "image_6") = none
    rw [row_get_append_none _ (show Row.get? (imageBlock [u1, u2, u3]) (.str "image_6")
      = none by with_unfolding_all rfl)]
    with_unfolding_all rfl

/-- C1 counterexample: the claim says a wrong-typed field lookup (e.g. a
non-mapping under mrpPrice) only omits that field from the row; in fact on
the document whose mrpPrice is the number 5 the post-parse extraction raises
AttributeError at mrpPrice.get, aborting flattening instead of returning a
partial row, even though the top-level document parsed fine. -/
theorem c1_counterexample :
    flattenFields (Json.obj [("mrpPrice", Json.num 5)]) []
      = Except.error "AttributeError: get" := by
  with_unfolding_all rfl

/-- C1 (amended): the Field Flattener returns a row for every document whose
present recognized fields have the container shapes the code dereferences
(wellShaped) — missing keys and arbitrary extra fields are harmless, and a
document with none of the recognized keys only gains the five null-valued
scalar columns; but a present truthy field of the wrong shape raises out of
the flattener (see the counterexample), it is not merely omitted. -/
theorem c1_flatten_total_on_wellshaped (doc : Json) (r : Row) :
    (wellShaped doc = true → ∃ row, flattenFields doc r = Except.ok row)
    ∧ flattenFields (Json.obj []) r = Except.ok (r ++ scalarNulls) := by
  constructor
  · exact fun h => flattenFields_ok doc r h
  · exact flatten_chain (Json.obj []) r (r ++ scalarNulls) (r ++ scalarNulls)
      (r ++ scalarNulls) (r ++ scalarNulls) (r ++ scalarNulls) (r ++ scalarNulls)
      ((setScalars_eval [] r).trans (by with_unfolding_all rfl))
      (setPricing_noop [] (r ++ scalarNulls) rfl rfl rfl)
      (setBreadcrumbs_noop [] (r ++ scalarNulls) rfl)
      (setDetails_noop [] (r ++ scalarNulls) rfl)
      (setImages_noop [] (r ++ scalarNulls) rfl)
      (setMfg_noop [] (r ++ scalarNulls) rfl)

/-- C1 witness: the amended totality theorem applied to a concrete document
exercising pricing, breadcrumbs, details, gallery and manufacturer data. -/
theorem c1_witness :
    wellShaped (Json.obj [("mrpPrice", Json.obj [("value", Json.num 999)]),
      ("details", Json.arr [Json.obj [("key", Json.str "Fabric"),
        ("value", Json.str "Silk")]]),
      ("mfgDetails", Json.obj [("Importer", Json.arr [Json.obj [("value", Json.str "X")]])]),
      ("categoryHierarchy", Json.arr [Json.obj [("category_name", Json.str "Men")]]),
      ("galleryImagesList", Json.arr [Json.obj [("galleryImages",
        Json.arr [Json.obj [("key", Json.str "superZoom"),
          ("value", Json.str "//img")]])]])]) = true
    ∧ ∃ row, flattenFields (Json.obj [("mrpPrice", Json.obj [("value", Json.num 999)]),
      ("details", Json.arr [Json.obj [("key", Json.str "Fabric"),
        ("value", Json.str "Silk")]]),
      ("mfgDetails", Json.obj [("Importer", Json.arr [Json.obj [("value", Json.str "X")]])]),
      ("categoryHierarchy", Json.arr [Json.obj [("category_name", Json.str "Men")]]),
      ("galleryImagesList", Json.arr [Json.obj [("galleryImages",
        Json.arr [Json.obj [("key", Json.str "superZoom"),
          ("value", Json.str "//img")]])]])]) [] = Except.ok row := by
  constructor
  · with_unfolding_all rfl
  · exact (c1_flatten_total_on_wellshaped (Json.obj [("mrpPrice",
      Json.obj [("value", Json.num 999)]),
      ("details", Json.arr [Json.obj [("key", Json.str "Fabric"),
        ("value", Json.str "Silk")]]),
      ("mfgDetails", Json.obj [("Importer", Json.arr [Json.obj [("value", Json.str "X")]])]),
      ("categoryHierarchy", Json.arr [Json.obj [("category_name", Json.str "Men")]]),
      ("galleryImagesList", Json.arr [Json.obj [("galleryImages",
        Json.arr [Json.obj [("key", Json.str "superZoom"),
          ("value", Json.str "//img")]])]])]) []).1 (by with_unfolding_all rfl)

/-- C3 counterexample: on an item whose size-guide lookup raises, the row is
not left with an empty size-guide result — the exception is error-flagged on
the row as a SizeGuide_Error column, contradicting the claim that the
failure does not error-flag the row and adds no columns. -/
theorem c3_counterexample :
    Row.get? (rowOf (extract_product "x" (.resp 200 "\x7b\x7d")
      (fun _ => some (Json.obj [("sizeGuideId", Json.num 1)]))
      (fun _ _ => Except.error "boom"))) (.str "SizeGuide_Error")
      = some (.str "boom") := by
  with_unfolding_all rfl

/-- C3 (amended): when the size-guide call raises, the row is still produced;
every already-extracted column keeps its value and no size-guide data
columns are added — the only change is a single SizeGuide_Error column
recording the exception text (blocked and Error stay untouched within the
preserved columns). -/
theorem c3_sizeguide_failure_row (inp b : String) (st : Int)
    (jparse : String → Option Json) (sg : String → Json → Except String Row)
    (fs : List (String × Json)) (r : Row) (sgid : Json) (e : String)
    (h0 : (pyStrip inp == "") = false)
    (h1 : (pyStartsWith (pyStrip b) "\x7b" && pyEndsWith (pyStrip b) "\x7d") = true)
    (h2 : jparse (pyStrip b) = some (.obj fs))
    (h3 : flattenFields (.obj fs) (readyRow inp st) = Except.ok r)
    (h4 : lookupF fs "sizeGuideId" = some sgid)
    (h5 : sgid.truthy = true)
    (h6 : sg (derive_pid (pyStrip inp)) sgid = Except.error e) :
    extract_product inp (.resp st b) jparse sg
      = Except.ok (Row.set r (.str "SizeGuide_Error") (.str e))
    ∧ (∀ k, ((Json.str "SizeGuide_Error") == k) = false →
        Row.get? (Row.set r (.str "SizeGuide_Error") (.str e)) k = Row.get? r k)
    ∧ Row.get? (Row.set r (.str "SizeGuide_Error") (.str e)) (.str "SizeGuide_Error")
        = some (.str e) := by
  refine ⟨?_, ?_, ?_⟩
  · rw [extract_sgres inp b st jparse sg fs r sgid h0 h1 h2 h3 h4 h5, h6]
  · intro k hk
    exact row_get_set_ne r _ _ k hk
  · exact row_get_set_same r _ _

/-- C3 witness: the amended theorem at a concrete failing size-guide call. -/
theorem c3_witness :
    extract_product "x" (.resp 200 "\x7b\x7d")
      (fun _ => some (Json.obj [("sizeGuideId", Json.num 1)]))
      (fun _ _ => Except.error "boom")
      = Except.ok (Row.set (readyRow "x" 200 ++ scalarNulls)
          (.str "SizeGuide_Error") (.str "boom"))
    ∧ Row.get? (Row.set (readyRow "x" 200 ++ scalarNulls)
        (.str "SizeGuide_Error") (.str "boom")) (.str "productTitle")
      = Row.get? (readyRow "x" 200 ++ scalarNulls) (.str "productTitle") := by
  have h := c3_sizeguide_failure_row "x" "\x7b\x7d" 200
    (fun _ => some (Json.obj [("sizeGuideId", Json.num 1)]))
    (fun _ _ => Except.error "boom") [("sizeGuideId", Json.num 1)]
    (readyRow "x" 200 ++ scalarNulls) (Json.num 1) "boom"
    (by with_unfolding_all rfl) (by with_unfolding_all rfl) (by with_unfolding_all rfl)
    (by with_unfolding_all rfl) (by with_unfolding_all rfl) (by with_unfolding_all rfl)
    (by with_unfolding_all rfl)
  exact ⟨h.1, h.2.1 (.str "productTitle") (by with_unfolding_all rfl)⟩

/-- C4 counterexample: the stored productDescription is exactly the raw
fetched value — the HTML tag, the undecoded entity and the double space all
survive, contradicting decode, strip and whitespace collapse. -/
theorem c4_counterexample :
    Row.get? (rowOf (setScalars (Json.obj [("productDescription",
      Json.str "<b>Hi&amp;  there</b>")]) [])) (.str "productDescription")
      = some (.str "<b>Hi&amp;  there</b>")
    ∧ pyContainsStr "<b>Hi&amp;  there</b>" "<b>" = true
    ∧ pyContainsStr "<b>Hi&amp;  there</b>" "&amp;" = true
    ∧ pyContainsStr "<b>Hi&amp;  there</b>" "  " = true := by
  refine ⟨?_, ?_, ?_, ?_⟩ <;> with_unfolding_all rfl

/-- C4 (amended): the rich-text field is stored verbatim — the row holds
exactly the raw document value of productDescription, with no HTML entity
decoding, tag stripping or whitespace collapsing (the source assigns
json_data.get directly and never invokes an HTML parser). -/
theorem c4_description_verbatim (fs : List (String × Json)) (r : Row) (v : Json)
    (h : lookupF fs "productDescription" = some v) :
    ∃ r', setScalars (.obj fs) r = Except.ok r'
      ∧ Row.get? r' (.str "productDescription") = some v := by
  refine ⟨_, setScalars_eval fs r, ?_⟩
  have hb : Row.get?
      [(.str "productTitle", (lookupF fs "productTitle").getD .null),
       (.str "brandName", (lookupF fs "brandName").getD .null),
       (.str "productDescription", (lookupF fs "productDescription").getD .null),
       (.str "productColor", (lookupF fs "productColor").getD .null),
       (.str "styleNote", (lookupF fs "styleNote").getD .null)]
      (.str "productDescription")
      = some ((lookupF fs "productDescription").getD .null) := by
    with_unfolding_all rfl
  have hb2 : Row.get?
      [(.str "productTitle", (lookupF fs "productTitle").getD .null),
       (.str "brandName", (lookupF fs "brandName").getD .null),
       (.str "productDescription", (lookupF fs "productDescription").getD .null),
       (.str "productColor", (lookupF fs "productColor").getD .null),
       (.str "styleNote", (lookupF fs "styleNote").getD .null)]
      (.str "productDescription") = some v := by
    rw [hb, h]
    rfl
  exact row_get_append_some r hb2

/-- C4 witness: the verbatim-storage theorem at a concrete raw HTML value. -/
theorem c4_witness :
    ∃ r', setScalars (Json.obj [("productDescription", Json.str "<i>raw</i>")]) []
        = Except.ok r'
      ∧ Row.get? r' (.str "productDescription") = some (Json.str "<i>raw</i>") :=
  c4_description_verbatim [("productDescription", Json.str "<i>raw</i>")] []
    (Json.str "<i>raw</i>") (by with_unfolding_all rfl)

/-- C5: last write wins for repeated detail keys — for a document whose
details list holds the given key/value entries, the row maps each non-empty
key to the value of its last entry; in particular Fabric Cotton then Silk
yields Fabric Silk (see the witness). -/
theorem c5_last_write_wins (es : List (String × Json)) (k : String) (v : Json)
    (hk : k ≠ "") (h : lastAssoc es k = some v) :
    ∃ r, flattenFields (Json.obj [("details", Json.arr (es.map mkDetail))]) []
        = Except.ok r
      ∧ Row.get? r (Json.str k) = some v := by
  refine ⟨(([] : Row) ++ scalarNulls) ++ detailsBlock es, flatten_details_doc es [], ?_⟩
  exact row_get_append_some _ (detailsBlock_get_some es k v hk h)

/-- C5 witness: the Fabric example — Cotton then Silk yields Silk. -/
theorem c5_witness :
    ∃ r, flattenFields (Json.obj [("details", Json.arr
        ([("Fabric", Json.str "Cotton"), ("Fabric", Json.str "Silk")].map mkDetail))]) []
      = Except.ok r ∧ Row.get? r (Json.str "Fabric") = some (Json.str "Silk") :=
  c5_last_write_wins [("Fabric", Json.str "Cotton"), ("Fabric", Json.str "Silk")]
    "Fabric" (Json.str "Silk") (by decide) (by with_unfolding_all rfl)

/-- C2: for every dimension of a size-guide table (dimension names are
strings in these documents): when the centimeter and inch series are
element-wise identical the reconciliation loop emits exactly one column
keyed by the raw dimension name holding the centimeter series; otherwise it
emits the centimeter series under "dim ( Cm )" when that series is
non-empty and the inch series under "dim ( Inches )" when non-empty — the
unit In is always expanded to the word Inches and Cm is never relabeled. -/
theorem c2_unit_reconciliation (cmMap inMap : DimMap) (s : String) :
    ((seriesLookup cmMap (.str s) == seriesLookup inMap (.str s)) = true →
      reconcileDim cmMap inMap (.str s)
        = [(Json.str s, optArr (seriesLookup cmMap (.str s)))])
    ∧ ((seriesLookup cmMap (.str s) == seriesLookup inMap (.str s)) = false →
      reconcileDim cmMap inMap (.str s)
        = (if seriesTruthy (seriesLookup cmMap (.str s)) then
            [(Json.str (s ++ " ( Cm )"), optArr (seriesLookup cmMap (.str s)))]
          else [])
          ++ (if seriesTruthy (seriesLookup inMap (.str s)) then
            [(Json.str (s ++ " ( Inches )"), optArr (seriesLookup inMap (.str s)))]
          else [])) := by
  have h0 : reconcileDim cmMap inMap (.str s)
      = (if (seriesLookup cmMap (.str s) == seriesLookup inMap (.str s)) = true then
          [(format_size_header (.str s) none, optArr (seriesLookup cmMap (.str s)))]
        else
          (if seriesTruthy (seriesLookup cmMap (.str s)) then
            [(format_size_header (.str s) (some "Cm"),
              optArr (seriesLookup cmMap (.str s)))]
          else [])
          ++ (if seriesTruthy (seriesLookup inMap (.str s)) then
            [(format_size_header (.str s) (some "In"),
              optArr (seriesLookup inMap (.str s)))]
          else [])) := rfl
  have hcm : format_size_header (.str s) (some "Cm") = .str (s ++ " ( Cm )") := by
    have h1 : format_size_header (.str s) (some "Cm")
        = .str (((s ++ " ( ") ++ "Cm") ++ " )") := by with_unfolding_all rfl
    rw [h1, String.append_assoc, String.append_assoc]
    with_unfolding_all rfl
  have hin : format_size_header (.str s) (some "In") = .str (s ++ " ( Inches )") := by
    have h1 : format_size_header (.str s) (some "In")
        = .str (((s ++ " ( ") ++ "Inches") ++ " )") := by with_unfolding_all rfl
    rw [h1, String.append_assoc, String.append_assoc]
    with_unfolding_all rfl
  constructor
  · intro h
    rw [h0]
    simp only [h, if_true]
    rfl
  · intro h
    rw [h0]
    simp only [h, Bool.false_eq_true, if_false]
    rw [hcm, hin]

/-- C2 witness: identical series collapse to one raw-named column; differing
series yield the Cm and Inches suffixed columns. -/
theorem c2_witness :
    reconcileDim [(Json.str "Chest", [Json.num 10, Json.num 20])]
        [(Json.str "Chest", [Json.num 10, Json.num 20])] (.str "Chest")
      = [(Json.str "Chest", Json.arr [Json.num 10, Json.num 20])]
    ∧ reconcileDim [(Json.str "Chest", [Json.num 10, Json.num 20])]
        [(Json.str "Chest", [Json.num 4, Json.num 8])] (.str "Chest")
      = [(Json.str "Chest ( Cm )", Json.arr [Json.num 10, Json.num 20]),
         (Json.str "Chest ( Inches )", Json.arr [Json.num 4, Json.num 8])] := by
  constructor
  · have h := (c2_unit_reconciliation [(Json.str "Chest", [Json.num 10, Json.num 20])]
      [(Json.str "Chest", [Json.num 10, Json.num 20])] "Chest").1
      (by with_unfolding_all rfl)
    rw [h]
    with_unfolding_all rfl
  · have h := (c2_unit_reconciliation [(Json.str "Chest", [Json.num 10, Json.num 20])]
      [(Json.str "Chest", [Json.num 4, Json.num 8])] "Chest").2
      (by with_unfolding_all rfl)
    rw [h]
    with_unfolding_all rfl

/-- C6: the 1-based image indices restart for every document — the batch maps
each item through extract_product independently, and for two documents that
each keep exactly three gallery images both rows carry image_1, image_2 and
image_3 holding their own URLs and carry no image_4, image_5 or image_6,
whatever the other document contained. -/
theorem c6_image_index_restarts (in1 in2 b1 b2 : String) (st1 st2 : Int)
    (jparse : String → Option Json) (sg : String → Json → Except String Row)
    (g1 g2 : Json) (u1 u2 u3 v1 v2 v3 : String)
    (hI1 : (pyStrip in1 == "") = false)
    (hI2 : (pyStrip in2 == "") = false)
    (hF1 : (pyStartsWith (pyStrip b1) "\x7b" && pyEndsWith (pyStrip b1) "\x7d") = true)
    (hF2 : (pyStartsWith (pyStrip b2) "\x7b" && pyEndsWith (pyStrip b2) "\x7d") = true)
    (hJ1 : jparse (pyStrip b1) = some (.obj [("galleryImagesList", g1)]))
    (hJ2 : jparse (pyStrip b2) = some (.obj [("galleryImagesList", g2)]))
    (hC1 : collectImgs g1 = Except.ok [u1, u2, u3])
    (hC2 : collectImgs g2 = Except.ok [v1, v2, v3]) :
    processBatch [(in1, .resp st1 b1), (in2, .resp st2 b2)] jparse sg
      = [extract_product in1 (.resp st1 b1) jparse sg,
         extract_product in2 (.resp st2 b2) jparse sg]
    ∧ (Row.get? (rowOf (extract_product in1 (.resp st1 b1) jparse sg)) (.str "image_1")
          = some (.str u1)
        ∧ Row.get? (rowOf (extract_product in1 (.resp st1 b1) jparse sg)) (.str "image_2")
          = some (.str u2)
        ∧ Row.get? (rowOf (extract_product in1 (.resp st1 b1) jparse sg)) (.str "image_3")
          = some (.str u3)
        ∧ Row.get? (rowOf (extract_product in1 (.resp st1 b1) jparse sg)) (.str "image_4") = none
        ∧ Row.get? (rowOf (extract_product in1 (.resp st1 b1) jparse sg)) (.str "image_5") = none
        ∧ Row.get? (rowOf (extract_product in1 (.resp st1 b1) jparse sg)) (.str "image_6") = none)
    ∧ (Row.get? (rowOf (extract_product in2 (.resp st2 b2) jparse sg)) (.str "image_1")
          = some (.str v1)
        ∧ Row.get? (rowOf (extract_product in2 (.resp st2 b2) jparse sg)) (.str "image_2")
          = some (.str v2)
        ∧ Row.get? (rowOf (extract_product in2 (.resp st2 b2) jparse sg)) (.str "image_3")
          = some (.str v3)
        ∧ Row.get? (rowOf (extract_product in2 (.resp st2 b2) jparse sg)) (.str "image_4") = none
        ∧ Row.get? (rowOf (extract_product in2 (.resp st2 b2) jparse sg)) (.str "image_5") = none
        ∧ Row.get? (rowOf (extract_product in2 (.resp st2 b2) jparse sg)) (.str "image_6") = none) := by
  refine ⟨rfl, ?_, ?_⟩
  · exact (gallery_row_gets in1 b1 st1 jparse sg g1 u1 u2 u3 hI1 hF1 hJ1 hC1).2
  · exact (gallery_row_gets in2 b2 st2 jparse sg g2 v1 v2 v3 hI2 hF2 hJ2 hC2).2

/-- C6 witness: two concrete documents with three superZoom images each. -/
theorem c6_witness :
    Row.get? (rowOf (extract_product "i1" (.resp 200 "\x7bA\x7d")
        (fun s => if s == "\x7bA\x7d" then
            some (Json.obj [("galleryImagesList", mkGallery
              [[("superZoom", "//a1"), ("superZoom", "//a2"), ("superZoom", "//a3")]])])
          else
            some (Json.obj [("galleryImagesList", mkGallery
              [[("superZoom", "//b1"), ("superZoom", "//b2"), ("superZoom", "//b3")]])]))
        (fun _ _ => Except.error "unused"))) (.str "image_3")
      = some (.str "https://a3")
    ∧ Row.get? (rowOf (extract_product "i2" (.resp 200 "\x7bB\x7d")
        (fun s => if s == "\x7bA\x7d" then
            some (Json.obj [("galleryImagesList", mkGallery
              [[("superZoom", "//a1"), ("superZoom", "//a2"), ("superZoom", "//a3")]])])
          else
            some (Json.obj [("galleryImagesList", mkGallery
              [[("superZoom", "//b1"), ("superZoom", "//b2"), ("superZoom", "//b3")]])]))
        (fun _ _ => Except.error "unused"))) (.str "image_1")
      = some (.str "https://b1")
    ∧ Row.get? (rowOf (extract_product "i2" (.resp 200 "\x7bB\x7d")
        (fun s => if s == "\x7bA\x7d" then
            some (Json.obj [("galleryImagesList", mkGallery
              [[("superZoom", "//a1"), ("superZoom", "//a2"), ("superZoom", "//a3")]])])
          else
            some (Json.obj [("galleryImagesList", mkGallery
              [[("superZoom", "//b1"), ("superZoom", "//b2"), ("superZoom", "//b3")]])]))
        (fun _ _ => Except.error "unused"))) (.str "image_4")
      = none := by
  have h := c6_image_index_restarts "i1" "i2" "\x7bA\x7d" "\x7bB\x7d" 200 200
    (fun s => if s == "\x7bA\x7d" then
        some (Json.obj [("galleryImagesList", mkGallery
          [[("superZoom", "//a1"), ("superZoom", "//a2"), ("superZoom", "//a3")]])])
      else
        some (Json.obj [("galleryImagesList", mkGallery
          [[("superZoom", "//b1"), ("superZoom", "//b2"), ("superZoom", "//b3")]])]))
    (fun _ _ => Except.error "unused")
    (mkGallery [[("superZoom", "//a1"), ("superZoom", "//a2"), ("superZoom", "//a3")]])
    (mkGallery [[("superZoom", "//b1"), ("superZoom", "//b2"), ("superZoom", "//b3")]])
    "https://a1" "https://a2" "https://a3" "https://b1" "https://b2" "https://b3"
    (by with_unfolding_all rfl) (by with_unfolding_all rfl)
    (by with_unfolding_all rfl) (by with_unfolding_all rfl)
    (by with_unfolding_all rfl) (by with_unfolding_all rfl)
    (by with_unfolding_all rfl) (by with_unfolding_all rfl)
  exact ⟨h.2.1.2.2.1, h.2.2.1, h.2.2.2.2.2.1⟩

/-- C7: size-guide columns win on key collisions — the flattened fields are
applied first and the size-guide row is merged on top with dict.update, so
every key bound by the size-guide table reads back with the size-guide
value in the merged row. -/
theorem c7_sizeguide_precedence (inp b : String) (st : Int)
    (jparse : String → Option Json) (sg : String → Json → Except String Row)
    (fs : List (String × Json)) (r : Row) (sgid : Json) (s : Row) (k v : Json)
    (h0 : (pyStrip inp == "") = false)
    (h1 : (pyStartsWith (pyStrip b) "\x7b" && pyEndsWith (pyStrip b) "\x7d") = true)
    (h2 : jparse (pyStrip b) = some (.obj fs))
    (h3 : flattenFields (.obj fs) (readyRow inp st) = Except.ok r)
    (h4 : lookupF fs "sizeGuideId" = some sgid)
    (h5 : sgid.truthy = true)
    (h6 : sg (derive_pid (pyStrip inp)) sgid = Except.ok s)
    (h7 : Row.get? s k = some v) :
    extract_product inp (.resp st b) jparse sg = Except.ok (Row.update r s)
    ∧ Row.get? (Row.update r s) k = some v := by
  constructor
  · rw [extract_sgres inp b st jparse sg fs r sgid h0 h1 h2 h3 h4 h5, h6]
  · rw [row_update_eq_append]
    exact row_get_append_some r h7

/-- C7 witness: a size-guide row rebinding productTitle wins over the
flattened null. -/
theorem c7_witness :
    extract_product "x" (.resp 200 "\x7b\x7d")
      (fun _ => some (Json.obj [("sizeGuideId", Json.num 2)]))
      (fun _ _ => Except.ok [(Json.str "Brand Size", Json.arr [Json.str "M"]),
        (Json.str "productTitle", Json.str "SGwin")])
      = Except.ok (Row.update (readyRow "x" 200 ++ scalarNulls)
          [(Json.str "Brand Size", Json.arr [Json.str "M"]),
           (Json.str "productTitle", Json.str "SGwin")])
    ∧ Row.get? (Row.update (readyRow "x" 200 ++ scalarNulls)
        [(Json.str "Brand Size", Json.arr [Json.str "M"]),
         (Json.str "productTitle", Json.str "SGwin")]) (Json.str "productTitle")
      = some (Json.str "SGwin") :=
  c7_sizeguide_precedence "x" "\x7b\x7d" 200
    (fun _ => some (Json.obj [("sizeGuideId", Json.num 2)]))
    (fun _ _ => Except.ok [(Json.str "Brand Size", Json.arr [Json.str "M"]),
      (Json.str "productTitle", Json.str "SGwin")])
    [("sizeGuideId", Json.num 2)] (readyRow "x" 200 ++ scalarNulls) (Json.num 2)
    [(Json.str "Brand Size", Json.arr [Json.str "M"]),
     (Json.str "productTitle", Json.str "SGwin")]
    (Json.str "productTitle") (Json.str "SGwin")
    (by with_unfolding_all rfl) (by with_unfolding_all rfl) (by with_unfolding_all rfl)
    (by with_unfolding_all rfl) (by with_unfolding_all rfl) (by with_unfolding_all rfl)
    (by with_unfolding_all rfl) (by with_unfolding_all rfl)

/-- C8 counterexample: a tatacliq.com URL without the /p- marker does not
yield an error outcome citing a derivation failure — str.split returns the
unsplit string, so the whole URL silently becomes the product id and the
extraction proceeds as a non-error row (blocked false, empty Error). -/
theorem c8_counterexample :
    Row.get? (rowOf (extract_product "https://www.tatacliq.com/someproduct"
      (.resp 200 "\x7b\x7d") (fun _ => some (Json.obj []))
      (fun _ _ => Except.error "unused"))) (.str "product_id")
      = some (.str "https://www.tatacliq.com/someproduct")
    ∧ Row.get? (rowOf (extract_product "https://www.tatacliq.com/someproduct"
      (.resp 200 "\x7b\x7d") (fun _ => some (Json.obj []))
      (fun _ _ => Except.error "unused"))) (.str "Error")
      = some (.str "")
    ∧ Row.get? (rowOf (extract_product "https://www.tatacliq.com/someproduct"
      (.resp 200 "\x7b\x7d") (fun _ => some (Json.obj []))
      (fun _ _ => Except.error "unused"))) (.str "blocked")
      = some (.bool false) := by
  refine ⟨?_, ?_, ?_⟩ <;> with_unfolding_all rfl

/-- C8 (amended): identifier derivation never fails — an input without the
/p- marker keeps the whole stripped input as the product id; the only
input-validation error is a blank input, answered with exactly the Input and
Error columns; and every row extract_product returns carries an Input
column (holding the original input unless a document or size-guide key
literally named Input overwrites it). -/
theorem c8_input_and_derivation (inp : String) (f : Fetch)
    (jparse : String → Option Json) (sg : String → Json → Except String Row)
    (row : Row) (raw : String) :
    (extract_product inp f jparse sg = Except.ok row →
      (Row.get? row (.str "Input")).isSome = true)
    ∧ (pySplit raw "/p-" = [raw] → derive_pid raw = pyStrip raw)
    ∧ ((pyStrip inp == "") = true →
      extract_product inp f jparse sg
        = Except.ok [(.str "Input", .str inp), (.str "Error", .str "Empty input")]) := by
  refine ⟨?_, ?_, ?_⟩
  · intro h
    cases hE : (pyStrip inp == "") with
    | true =>
      rw [extract_empty inp f jparse sg hE] at h
      injection h with h
      rw [← h]
      with_unfolding_all rfl
    | false =>
      cases f with
      | exc msg =>
        rw [extract_exc inp msg jparse sg hE] at h
        injection h with h
        rw [← h]
        with_unfolding_all rfl
      | resp st b =>
        cases hF : (pyStartsWith (pyStrip b) "\x7b" && pyEndsWith (pyStrip b) "\x7d") with
        | true =>
          cases hJ : jparse (pyStrip b) with
          | none =>
            rw [extract_rawfail inp b st jparse sg hE hF hJ] at h
            injection h with h
            rw [← h]
            with_unfolding_all rfl
          | some doc =>
            rw [extract_parsed inp b st jparse sg doc hE hF hJ] at h
            exact tail_presence doc inp st sg row h
        | false =>
          cases hP : pyContainsStr b "<p>" with
          | true =>
            cases hJ : jparse (pyStrip ((pySplit ((pySplit b "<p>").getLastD "")
                "</p>").headD "")) with
            | none =>
              rw [extract_htmlfail inp b st jparse sg hE hF hP hJ] at h
              injection h with h
              rw [← h]
              with_unfolding_all rfl
            | some doc =>
              rw [extract_html_parsed inp b st jparse sg doc hE hF hP hJ] at h
              exact tail_presence doc inp st sg row h
          | false =>
            rw [extract_unknown inp b st jparse sg hE hF hP] at h
            injection h with h
            rw [← h]
            with_unfolding_all rfl
  · intro h
    unfold derive_pid
    cases hc : pyContainsStr raw "tatacliq.com" with
    | true =>
      simp only [if_true]
      rw [h]
      rfl
    | false => simp
  · intro h
    exact extract_empty inp f jparse sg h

/-- C8 witness: the amended theorem at a transport-failure row, a markerless
URL and a blank input. -/
theorem c8_witness :
    (Row.get? (rowOf (extract_product "x" (.exc "net down") (fun _ => none)
        (fun _ _ => Except.error "unused"))) (.str "Input")).isSome = true
    ∧ derive_pid "https://www.tatacliq.com/abc" = pyStrip "https://www.tatacliq.com/abc"
    ∧ extract_product "  " (.exc "net down") (fun _ => none)
        (fun _ _ => Except.error "unused")
      = Except.ok [(.str "Input", .str "  "), (.str "Error", .str "Empty input")] := by
  refine ⟨?_, ?_, ?_⟩
  · exact (c8_input_and_derivation "x" (.exc "net down") (fun _ => none)
      (fun _ _ => Except.error "unused")
      (rowOf (extract_product "x" (.exc "net down") (fun _ => none)
        (fun _ _ => Except.error "unused"))) "").1 (by with_unfolding_all rfl)
  · exact (c8_input_and_derivation "x" (.exc "net down") (fun _ => none)
      (fun _ _ => Except.error "unused") [] "https://www.tatacliq.com/abc").2.1
      (by with_unfolding_all rfl)
  · exact (c8_input_and_derivation "  " (.exc "net down") (fun _ => none)
      (fun _ _ => Except.error "unused") [] "").2.2 (by with_unfolding_all rfl)

/-- C9: flattening is deterministic and idempotent — extract_product is a
pure function of the parsed document and its collaborators, recomputed from
scratch per item with no state shared across items, so processing the same
item twice in one batch yields the same outcome and rows with identical
key-to-value content. -/
theorem c9_idempotent_flattening (inp : String) (f : Fetch)
    (jparse : String → Option Json) (sg : String → Json → Except String Row)
    (k : Json) :
    processBatch [(inp, f), (inp, f)] jparse sg
      = [extract_product inp f jparse sg, extract_product inp f jparse sg]
    ∧ (processBatch [(inp, f), (inp, f)] jparse sg)[0]?
      = (processBatch [(inp, f), (inp, f)] jparse sg)[1]?
    ∧ Row.get? (rowOf ((processBatch [(inp, f), (inp, f)] jparse sg)[0]?.getD
        (Except.ok []))) k
      = Row.get? (rowOf ((processBatch [(inp, f), (inp, f)] jparse sg)[1]?.getD
        (Except.ok []))) k :=
  ⟨rfl, rfl, rfl⟩

/-- C10: the gallery section keeps exactly the superZoom entries with a
non-empty value, in document order across all groups, prepends https: to
each kept raw value, and numbers the resulting columns image_1 .. image_N
with contiguous 1-based indices (keptImgs and imageBlock state that
characterization; collectImgs and flattenFields are the code). -/
theorem c10_gallery_images (gs : List (List (String × String))) (r : Row) :
    collectImgs (mkGallery gs) = Except.ok (keptImgs gs)
    ∧ flattenFields (Json.obj [("galleryImagesList", mkGallery gs)]) r
        = Except.ok ((r ++ scalarNulls) ++ imageBlock (keptImgs gs)) :=
  ⟨collect_imgs_eval gs, flatten_gallery_any _ _ _ (collect_imgs_eval gs)⟩
